import Mathlib

/-!
Verification of the value-marshaling core of the fb-cpp Firebird client
binding.

The development shallowly embeds the numeric conversion engine
(src/lib/NumericConverter.h), the calendar conversion engine
(src/fb-cpp/CalendarConverter.h) and the message-buffer accessors
(src/lib/Statement.h) of the repository.  C++ machine integers are
modelled as unbounded `Int` together with the explicit limit checks the
code performs; C++ truncating division and remainder (`/` and `%` on
signed integers, which round toward zero) are `Int.tdiv` and `Int.tmod`.
Exceptions are modelled with `Except`.  External Firebird engine
primitives (the opaque tick encode/decode utilities and the time-zone
database) are not part of the repository; where a claim depends on them
they are either universally quantified oracle parameters or, where the
spec pins their meaning down, executable models marked as modelled from
the spec.
-/

namespace FbCpp

/-- Smallest value of a signed 16-bit integer. -/
def i16Min : Int := -32768

/-- Largest value of a signed 16-bit integer. -/
def i16Max : Int := 32767

/-- Smallest value of a signed 32-bit integer. -/
def i32Min : Int := -2147483648

/-- Largest value of a signed 32-bit integer. -/
def i32Max : Int := 2147483647

/-- Smallest value of a signed 64-bit integer. -/
def i64Min : Int := -9223372036854775808

/-- Largest value of a signed 64-bit integer. -/
def i64Max : Int := 9223372036854775807

/-- Smallest value of `BoostInt128`
(`boost::multiprecision::int128_t`, a signed-magnitude type with a
128-bit magnitude, so its `std::numeric_limits` minimum is
`-(2^128 - 1)`, not the two's-complement `-2^127`). -/
def i128Min : Int := -340282366920938463463374607431768211455

/-- Largest value of `BoostInt128` (`2^128 - 1`, see `i128Min`). -/
def i128Max : Int := 340282366920938463463374607431768211455

/-- Embedding of `DescriptorAdjustedType` from src/lib/Descriptor.h: the canonical type
code used to select a conversion algorithm. -/
inductive DescriptorAdjustedType : Type
  | NULL_TYPE
  | STRING
  | INT16
  | INT32
  | FLOAT
  | DOUBLE
  | TIMESTAMP
  | BLOB
  | TIME
  | DATE
  | INT64
  | TIMESTAMP_TZ
  | TIMESTAMP_TZ_EX
  | TIME_TZ
  | TIME_TZ_EX
  | INT128
  | DECFLOAT16
  | DECFLOAT34
  | BOOLEAN
deriving DecidableEq, Repr

/-- The failure conditions surfaced by the embedded code: the
`DatabaseException` status vectors thrown by the converters
(numeric out of range, conversion error from string, invalid
date/time/timestamp, string truncation), the `FbCppException` raised by
`Statement::throwInvalidType` (which records the accessor type name and
the descriptor type), `std::out_of_range` from descriptor index lookup,
and failures propagated from external delegate components. -/
inductive Err : Type
  | numericRange
  | conversionErrorFromString (s : String)
  | invalidDate
  | invalidTime
  | invalidTimestamp
  | stringTruncation
  | invalidType (actualType : String) (descriptorType : DescriptorAdjustedType)
  | outOfRange
  | delegateFailure (s : String)
deriving DecidableEq, Repr

/-- Decidable equality for `Except`, so concrete runs of the embedded
fallible operations can be checked by `decide`. -/
def exceptDecEq {ε α : Type} [DecidableEq ε] [DecidableEq α] :
    DecidableEq (Except ε α) := fun x y =>
  match x, y with
  | .ok a, .ok b =>
    if h : a = b then isTrue (by rw [h])
    else isFalse (fun hc => by cases hc; exact h rfl)
  | .error a, .error b =>
    if h : a = b then isTrue (by rw [h])
    else isFalse (fun hc => by cases hc; exact h rfl)
  | .ok _, .error _ => isFalse (fun hc => by cases hc)
  | .error _, .ok _ => isFalse (fun hc => by cases hc)

instance {ε α : Type} [DecidableEq ε] [DecidableEq α] :
    DecidableEq (Except ε α) := exceptDecEq

/-- Embedding of `ScaledNumber<T>` from src/lib/types.h: an unscaled value together
with a base-10 exponent, representing `value × 10^scale`. -/
structure ScaledNumber : Type where
  value : Int
  scale : Int
deriving DecidableEq, Repr

/-! ## NumericConverter (src/lib/NumericConverter.h)

`NumericConverter::adjustScale` and the integer-to-integer
`numberToNumber` overload compute in `ComputeType`, the wider of the
source and destination integer types.  Every intermediate value stays
within `ComputeType`'s range: the scale-reduction loop only divides, and
the scale-increase loop checks the destination limits (which lie inside
`ComputeType`'s range) before and after each multiplication.  The
computation therefore agrees with exact `Int` arithmetic, and the
embedding uses `Int` with the destination limits passed explicitly. -/

/-- The scale-reduction loop of `NumericConverter::adjustScale`
(`if (scale == 1) fraction = int(val % 10); val /= 10;` repeated `scale`
times, a do-while loop entered with `scale > 0`).  Returns the final
`val` and `fraction`.  `remaining = 0` in the recursion corresponds to
the C++ test `scale == 1` on the last iteration. -/
def downLoop : Int → Int → Nat → Int × Int
  | val, fraction, 0 => (val, fraction)
  | val, fraction, remaining + 1 =>
    downLoop (val.tdiv 10) (if remaining = 0 then val.tmod 10 else fraction) remaining

/-- The rounding step after the scale-reduction loop:
`if (fraction > 4) ++val; else if (fraction < -4) --val;`. -/
def roundAway (val fraction : Int) : Int :=
  if fraction > 4 then val + 1
  else if fraction < -4 then val - 1
  else val

/-- The scale-increase loop of `NumericConverter::adjustScale`: before
each multiplication by 10 the value is checked against
`maxLimit / 10` / `minLimit / 10`, and after it against `maxLimit` /
`minLimit`; either failure throws numeric-out-of-range.  `n` is the
number of iterations (`-scale` for the C++ `scale < 0`). -/
def upLoop (minLimit maxLimit : Int) : Int → Nat → Except Err Int
  | val, 0 => .ok val
  | val, n + 1 =>
    if val > maxLimit.tdiv 10 ∨ val < minLimit.tdiv 10 then .error .numericRange
    else if val * 10 > maxLimit ∨ val * 10 < minLimit then .error .numericRange
    else upLoop minLimit maxLimit (val * 10) n

/-- Embedding of `NumericConverter::adjustScale`. -/
def adjustScale (val : Int) (scale : Int) (minLimit maxLimit : Int) : Except Err Int :=
  if 0 < scale then
    let p := downLoop val 0 scale.toNat
    .ok (roundAway p.1 p.2)
  else if scale < 0 then
    upLoop minLimit maxLimit val (-scale).toNat
  else .ok val

/-- The integer-to-integer `NumericConverter::numberToNumber` overload:
rescale by `toScale - src.scale` via `adjustScale`, then require the
result to fit the destination limits. -/
def numberToNumber (toMin toMax : Int) (src : ScaledNumber) (toScale : Int) :
    Except Err Int :=
  match (if toScale - src.scale ≠ 0 then
           adjustScale src.value (toScale - src.scale) toMin toMax
         else .ok src.value) with
  | .error e => .error e
  | .ok result =>
    if result < toMin ∨ result > toMax then .error .numericRange
    else .ok result

/-- Embedding of `numberToNumber<std::int16_t>` on an integral source. -/
def numberToNumberI16 : ScaledNumber → Int → Except Err Int :=
  numberToNumber i16Min i16Max

/-- Embedding of `numberToNumber<std::int32_t>` on an integral source. -/
def numberToNumberI32 : ScaledNumber → Int → Except Err Int :=
  numberToNumber i32Min i32Max

/-- Embedding of `numberToNumber<std::int64_t>` on an integral source. -/
def numberToNumberI64 : ScaledNumber → Int → Except Err Int :=
  numberToNumber i64Min i64Max

/-- Embedding of `numberToNumber<BoostInt128>` on an integral source. -/
def numberToNumberI128 : ScaledNumber → Int → Except Err Int :=
  numberToNumber i128Min i128Max

/-! ## Arithmetic facts about the rescaling loops -/

/-- Iterated truncating division by 10. -/
def tdivPow (v : Int) : Nat → Int
  | 0 => v
  | n + 1 => (tdivPow v n).tdiv 10

theorem tdivPow_shift (v : Int) (n : Nat) :
    tdivPow (v.tdiv 10) n = tdivPow v (n + 1) := by
  induction n with
  | zero => rfl
  | succ k ih => simp only [tdivPow, ih]

/-- After `n + 1` iterations the scale-reduction loop holds the value
divided by `10^(n+1)` (truncating at each step) and, as the tracked
fraction, the last digit discarded. -/
theorem downLoop_eq (n : Nat) : ∀ (val a : Int),
    downLoop val a (n + 1) = (tdivPow val (n + 1), (tdivPow val n).tmod 10) := by
  induction n with
  | zero => intro val a; simp [downLoop, tdivPow]
  | succ k ih =>
    intro val a
    show downLoop (val.tdiv 10) _ (k + 1) = _
    rw [if_neg (Nat.succ_ne_zero k)]
    rw [ih (val.tdiv 10) a, tdivPow_shift, tdivPow_shift]

theorem tmod_neg_left (a b : Int) : (-a).tmod b = -(a.tmod b) := by
  rw [Int.tmod_def, Int.tmod_def, Int.neg_tdiv]
  ring

theorem tdiv_nonpos_of_nonpos (a b : Int) (h : a ≤ 0) (hb : 0 ≤ b) :
    a.tdiv b ≤ 0 := by
  have h2 := Int.tdiv_nonneg (a := -a) (b := b) (by omega) hb
  rw [Int.neg_tdiv] at h2
  omega

theorem tmod_nonpos_of_nonpos (a b : Int) (h : a ≤ 0) : a.tmod b ≤ 0 := by
  have h2 := Int.tmod_nonneg b (a := -a) (by omega)
  rw [tmod_neg_left] at h2
  omega

theorem tdivPow_nonneg (v : Int) (h : 0 ≤ v) (n : Nat) : 0 ≤ tdivPow v n := by
  induction n with
  | zero => exact h
  | succ k ih => exact Int.tdiv_nonneg ih (by norm_num)

theorem tdivPow_nonpos (v : Int) (h : v ≤ 0) (n : Nat) : tdivPow v n ≤ 0 := by
  induction n with
  | zero => exact h
  | succ k ih => exact tdiv_nonpos_of_nonpos _ _ ih (by norm_num)

theorem tdivPow_neg (v : Int) (n : Nat) : tdivPow (-v) n = -(tdivPow v n) := by
  induction n with
  | zero => rfl
  | succ k ih => simp only [tdivPow, ih, Int.neg_tdiv]

/-- C3.  For every scale-reducing integer rescale, the loop tracks the
final discarded digit and rounds half-away-from-zero: whenever the
tracked fraction has magnitude at least 5 the rounding step increases
the magnitude of the truncated quotient by one, regardless of sign; and
concretely `numberToNumber<int32>(ScaledInt16{-32768, -4}, 0)` yields
`-3`. -/
theorem round_half_away_from_zero
    (val : Int) (n : Nat) (hn : 0 < n) (v f : Int)
    (hdl : downLoop val 0 n = (v, f)) (hf : 5 ≤ f.natAbs) :
    (roundAway v f).natAbs = v.natAbs + 1 ∧
      numberToNumberI32 ⟨-32768, -4⟩ 0 = .ok (-3) := by
  refine ⟨?_, by decide⟩
  obtain ⟨m, rfl⟩ : ∃ m, n = m + 1 := ⟨n - 1, by omega⟩
  rw [downLoop_eq] at hdl
  obtain ⟨hv, hf'⟩ := Prod.mk.injEq .. ▸ hdl
  set w := tdivPow val m with hw
  have hcase : 5 ≤ f ∨ f ≤ -5 := by omega
  rcases hcase with hpos | hneg
  · have hwpos : 0 < w := by
      by_contra hc
      push_neg at hc
      have := tmod_nonpos_of_nonpos w 10 hc
      omega
    have hv0 : 0 ≤ v := by
      rw [← hv]
      simp only [tdivPow]
      exact Int.tdiv_nonneg (le_of_lt hwpos) (by norm_num)
    rw [roundAway, if_pos (by omega)]
    omega
  · have hwneg : w < 0 := by
      by_contra hc
      push_neg at hc
      have := Int.tmod_nonneg (a := w) 10 hc
      omega
    have hv0 : v ≤ 0 := by
      rw [← hv]
      simp only [tdivPow]
      exact tdiv_nonpos_of_nonpos _ _ (le_of_lt hwneg) (by norm_num)
    rw [roundAway, if_neg (by omega), if_pos (by omega)]
    omega

/-- Closed instance of `round_half_away_from_zero`: one division of 15
discards the digit 5 and the rounded magnitude is 2 = 1 + 1. -/
theorem round_half_away_from_zero_witness :
    (0 < 1 ∧ downLoop 15 0 1 = (1, 5) ∧ 5 ≤ (5 : Int).natAbs) ∧
      (roundAway 1 5).natAbs = (1 : Int).natAbs + 1 ∧
        numberToNumberI32 ⟨-32768, -4⟩ 0 = .ok (-3) :=
  ⟨⟨by decide, by decide, by decide⟩,
    round_half_away_from_zero 15 1 (by decide) 1 5 (by decide) (by decide)⟩

/-- Every successful run of the scale-increase loop leaves the value
within the destination limits: each multiplication is checked. -/
theorem upLoop_ok_in_range (minLimit maxLimit : Int) :
    ∀ (n : Nat) (v r : Int), 0 < n →
      upLoop minLimit maxLimit v n = .ok r → minLimit ≤ r ∧ r ≤ maxLimit := by
  intro n
  induction n with
  | zero => intro v r h; omega
  | succ k ih =>
    intro v r _ hrun
    rw [upLoop] at hrun
    split at hrun
    · exact absurd hrun (by simp)
    · split at hrun
      · exact absurd hrun (by simp)
      · rcases Nat.eq_zero_or_pos k with hk | hk
        · subst hk
          rw [upLoop] at hrun
          cases hrun
          omega
        · exact ih _ r hk hrun

/-- Every successful integer-to-integer conversion fits the destination
limits (the final width check). -/
theorem numberToNumber_ok_in_range (toMin toMax : Int) (src : ScaledNumber)
    (toScale r : Int) (h : numberToNumber toMin toMax src toScale = .ok r) :
    toMin ≤ r ∧ r ≤ toMax := by
  rw [numberToNumber] at h
  split at h
  · exact absurd h (by simp)
  · rename_i heq
    split at h
    · exact absurd h (by simp)
    · cases h
      rename_i hcond
      push_neg at hcond
      omega

/-- C4.  Scale-increasing integer rescaling checks the destination range
around every multiplication by 10, so a successful run of the loop (and
of the whole conversion) always lands inside the destination limits; a
source equal to the destination maximum converts successfully while one
unit above it fails with numeric-out-of-range, both in general and on
the concrete 16-bit boundary where one more factor of 10 is applied. -/
theorem overflow_boundary (toMin toMax : Int) (hle : toMin ≤ toMax) (s : Int) :
    (∀ (v : Int) (n : Nat) (r : Int), 0 < n →
        upLoop toMin toMax v n = .ok r → toMin ≤ r ∧ r ≤ toMax) ∧
    (∀ (src : ScaledNumber) (ts r : Int),
        numberToNumber toMin toMax src ts = .ok r → toMin ≤ r ∧ r ≤ toMax) ∧
    numberToNumber toMin toMax ⟨toMax, s⟩ s = .ok toMax ∧
    numberToNumber toMin toMax ⟨toMax + 1, s⟩ s = .error .numericRange ∧
    numberToNumberI16 ⟨3276, 0⟩ (-1) = .ok 32760 ∧
    numberToNumberI16 ⟨3277, 0⟩ (-1) = .error .numericRange := by
  refine ⟨fun v n r hn h => upLoop_ok_in_range toMin toMax n v r hn h,
    fun src ts r h => numberToNumber_ok_in_range toMin toMax src ts r h,
    ?_, ?_, by decide, by decide⟩
  · rw [numberToNumber]
    simp only [sub_self, ne_eq, not_true_eq_false, if_false]
    rw [if_neg (by omega)]
  · rw [numberToNumber]
    simp only [sub_self, ne_eq, not_true_eq_false, if_false]
    rw [if_pos (by omega)]

/-- Closed instance of `overflow_boundary` at the 32-bit limits. -/
theorem overflow_boundary_witness :
    i32Min ≤ i32Max ∧
      numberToNumber i32Min i32Max ⟨i32Max, 0⟩ 0 = .ok i32Max ∧
      numberToNumber i32Min i32Max ⟨i32Max + 1, 0⟩ 0 = .error .numericRange :=
  ⟨by decide, (overflow_boundary i32Min i32Max (by decide) 0).2.2.1,
    (overflow_boundary i32Min i32Max (by decide) 0).2.2.2.1⟩

/-- Negating the input negates both outputs of the scale-reduction
loop. -/
theorem downLoop_neg (n : Nat) : ∀ (val a : Int),
    downLoop (-val) (-a) n = (-(downLoop val a n).1, -(downLoop val a n).2) := by
  induction n with
  | zero => intro val a; rfl
  | succ k ih =>
    intro val a
    have hL : downLoop (-val) (-a) (k + 1)
        = downLoop (-(val.tdiv 10)) (-(if k = 0 then val.tmod 10 else a)) k := by
      show downLoop ((-val).tdiv 10) (if k = 0 then (-val).tmod 10 else -a) k = _
      rw [Int.neg_tdiv, tmod_neg_left]
      congr 1
      split <;> rfl
    have hR : downLoop val a (k + 1)
        = downLoop (val.tdiv 10) (if k = 0 then val.tmod 10 else a) k := rfl
    rw [hL, hR, ih]

theorem roundAway_neg (v f : Int) : roundAway (-v) (-f) = -(roundAway v f) := by
  rw [roundAway, roundAway]
  split_ifs <;> omega

/-- If the scale-increase loop succeeds both on a value and on its
negation, the results are negatives of each other. -/
theorem upLoop_neg_ok (minLimit maxLimit : Int) :
    ∀ (n : Nat) (v r r₂ : Int),
      upLoop minLimit maxLimit v n = .ok r →
      upLoop minLimit maxLimit (-v) n = .ok r₂ → r₂ = -r := by
  intro n
  induction n with
  | zero =>
    intro v r r₂ h1 h2
    cases h1; cases h2; rfl
  | succ k ih =>
    intro v r r₂ h1 h2
    rw [upLoop] at h1 h2
    split at h1
    · exact absurd h1 (by simp)
    split at h1
    · exact absurd h1 (by simp)
    split at h2
    · exact absurd h2 (by simp)
    split at h2
    · exact absurd h2 (by simp)
    rw [neg_mul] at h2
    exact ih _ _ _ h1 h2

/-- If `adjustScale` succeeds both on a value and on its negation, the
results are negatives of each other. -/
theorem adjustScale_neg_ok (val scale minLimit maxLimit r r₂ : Int)
    (h1 : adjustScale val scale minLimit maxLimit = .ok r)
    (h2 : adjustScale (-val) scale minLimit maxLimit = .ok r₂) : r₂ = -r := by
  rw [adjustScale] at h1 h2
  split at h1
  · rw [if_pos (by assumption)] at h2
    cases h1; cases h2
    have hd := downLoop_neg scale.toNat val 0
    rw [neg_zero] at hd
    rw [hd]
    exact roundAway_neg _ _
  · split at h1
    · rw [if_neg (by assumption), if_pos (by assumption)] at h2
      exact upLoop_neg_ok minLimit maxLimit _ _ _ _ h1 h2
    · rw [if_neg (by assumption), if_neg (by assumption)] at h2
      cases h1; cases h2; rfl

/-- C9.  Integer rescaling commutes with negation: whenever the
conversion succeeds on `⟨x, s⟩` and on `⟨-x, s⟩` (no overflow on either
side; with `x` strictly above the source type minimum, `-x` is a
representable source value), the results are negatives of each other. -/
theorem rescale_commutes_with_negation
    (toMin toMax fromMin : Int) (x s toScale r r₂ : Int)
    (hx : fromMin < x)
    (h1 : numberToNumber toMin toMax ⟨x, s⟩ toScale = .ok r)
    (h2 : numberToNumber toMin toMax ⟨-x, s⟩ toScale = .ok r₂) :
    r₂ = -r := by
  simp only [numberToNumber] at h1 h2
  split at h1
  · exact absurd h1 (by simp)
  rename_i v1 heq1
  split at h1
  · exact absurd h1 (by simp)
  cases h1
  split at h2
  · exact absurd h2 (by simp)
  rename_i v2 heq2
  split at h2
  · exact absurd h2 (by simp)
  cases h2
  by_cases hsd : toScale - s ≠ 0
  · rw [if_pos hsd] at heq1 heq2
    exact adjustScale_neg_ok x (toScale - s) toMin toMax r r₂ heq1 heq2
  · rw [if_neg hsd] at heq1 heq2
    cases heq1; cases heq2; rfl

/-- Closed instance of `rescale_commutes_with_negation`:
`ScaledInt16{1235, -1}` to scale 0 rounds to 124 and its negation to
`-124`. -/
theorem rescale_commutes_with_negation_witness :
    i16Min < (1235 : Int) ∧
      numberToNumber i32Min i32Max ⟨1235, -1⟩ 0 = .ok 124 ∧
      numberToNumber i32Min i32Max ⟨-1235, -1⟩ 0 = .ok (-124) ∧
      (-124 : Int) = -124 :=
  ⟨by decide, by decide, by decide,
    rescale_commutes_with_negation i32Min i32Max i16Min 1235 (-1) 0 124 (-124)
      (by decide) (by decide) (by decide)⟩

/-! ## numberToString (src/lib/NumericConverter.h) -/

/-- The digit-extraction do-while loop of `numberToString`, bounded by
the 64-byte digit buffer the C++ code writes into (a signed 128-bit
magnitude has at most 39 decimal digits, so the bound is never hit). -/
def digitLoopAux : Nat → Nat → List Nat
  | 0, _ => []
  | fuel + 1, u =>
    if u / 10 = 0 then [u % 10]
    else u % 10 :: digitLoopAux fuel (u / 10)

/-- The digit-extraction do-while loop of `numberToString`: produces the
decimal digits of `u`, least significant first, always at least one
digit. -/
def digitLoop (u : Nat) : List Nat := digitLoopAux 64 u

/-- The magnitude computation of `numberToString`: the absolute value is
taken through the unsigned counterpart type, with the signed minimum
(whose absolute value does not fit the signed width) computed as
`-(value + 1) + 1` to avoid overflow. -/
def unsignedMagnitude (minVal value : Int) : Nat :=
  if value = minVal then (-(value + 1)).toNat + 1
  else if value < 0 then (-value).toNat
  else value.toNat

/-- Digit value to ASCII character. -/
def digitChar (d : Nat) : Char := Char.ofNat (48 + d)

/-- Embedding of `NumericConverter::numberToString` for an integral scaled source:
fixed-point decimal rendering with no exponent.  `minVal` is the
source integer type's minimum (used only for the unsigned-counterpart
edge case). -/
def numberToString (minVal : Int) (src : ScaledNumber) : String :=
  let isNegative := src.value < 0
  let buffer := digitLoop (unsignedMagnitude minVal src.value)
  let digitCount := buffer.length
  let sign : List Char := if isNegative then ['-'] else []
  if 0 ≤ src.scale then
    ⟨sign ++ (buffer.reverse.map digitChar) ++
      List.replicate src.scale.toNat '0'⟩
  else
    let decimalPlaces := (-src.scale).toNat
    if digitCount ≤ decimalPlaces then
      ⟨sign ++ ['0', '.'] ++ List.replicate (decimalPlaces - digitCount) '0' ++
        (buffer.reverse.map digitChar)⟩
    else
      ⟨sign ++ ((buffer.drop decimalPlaces).reverse.map digitChar) ++ ['.'] ++
        ((buffer.take decimalPlaces).reverse.map digitChar)⟩

theorem digitLoop_ne_nil (u : Nat) : digitLoop u ≠ [] := by
  rw [digitLoop, digitLoopAux]
  split <;> simp

/-- C6.  `numberToString` renders fixed-point text: for a negative
scale the output is an optional minus sign, a nonempty integer part, a
decimal point and exactly `-scale` fraction digits (zero-padded when the
magnitude is short); the minus sign appears exactly for negative values;
the magnitude is always computed through the unsigned counterpart
(`unsignedMagnitude` equals `natAbs` whenever the type minimum is
negative, covering the signed-minimum edge case); and concretely
`numberToString(ScaledInt32{1234567, -2}) = "12345.67"`. -/
theorem numberToString_fixed_point
    (minVal : Int) (src : ScaledNumber) (hscale : src.scale < 0)
    (hmin : minVal < 0) :
    (∃ ip fp : List Char,
        (numberToString minVal src).data =
          (if src.value < 0 then ['-'] else []) ++ ip ++ '.' :: fp ∧
          fp.length = (-src.scale).toNat ∧ ip ≠ []) ∧
    unsignedMagnitude minVal src.value = src.value.natAbs ∧
    numberToString i32Min ⟨1234567, -2⟩ = "12345.67" := by
  refine ⟨?_, ?_, by decide⟩
  · rw [numberToString]
    simp only [if_neg (by omega : ¬ 0 ≤ src.scale)]
    set buffer := digitLoop (unsignedMagnitude minVal src.value) with hbuf
    by_cases hlen : buffer.length ≤ (-src.scale).toNat
    · rw [if_pos hlen]
      refine ⟨['0'], List.replicate ((-src.scale).toNat - buffer.length) '0' ++
        (buffer.reverse.map digitChar), ?_, ?_, by simp⟩
      · simp
      · simp only [List.length_append, List.length_replicate, List.length_map,
          List.length_reverse]
        omega
    · rw [if_neg hlen]
      refine ⟨(buffer.drop (-src.scale).toNat).reverse.map digitChar,
        (buffer.take (-src.scale).toNat).reverse.map digitChar, ?_, ?_, ?_⟩
      · simp
      · simp only [List.length_map, List.length_reverse, List.length_take]
        omega
      · simp only [ne_eq, List.map_eq_nil_iff, List.reverse_eq_nil_iff,
          List.drop_eq_nil_iff, not_le]
        omega
  · rw [unsignedMagnitude]
    split
    · rename_i h
      have : src.value < 0 := by omega
      omega
    · split <;> omega

/-- Closed instance of `numberToString_fixed_point` at
`ScaledInt32{1234567, -2}`. -/
theorem numberToString_fixed_point_witness :
    ((-2 : Int) < 0 ∧ i32Min < 0) ∧
      unsignedMagnitude i32Min (1234567 : Int) = (1234567 : Int).natAbs ∧
      numberToString i32Min ⟨1234567, -2⟩ = "12345.67" :=
  ⟨⟨by decide, by decide⟩,
    (numberToString_fixed_point i32Min ⟨1234567, -2⟩ (by decide) (by decide)).2⟩

/-! ## CalendarConverter (src/fb-cpp/CalendarConverter.h)

The text grammar is given in the source as `std::regex` patterns; the
parsers below are direct translations of those patterns over the
character list (`\s*` around every punctuation-separated field, fixed
digit counts, an optional 1-4 digit fraction, and for the zone-aware
variants a mandatory `\s+` followed by a nonempty run of non-space
characters).  The optional-fraction alternation reproduces the regex
backtracking: a fraction is committed only when the rest of the input
also matches, otherwise the zone is re-parsed without a fraction. -/

/-- The characters matched by `\s` in the `std::regex` patterns (and by
`std::isspace` in the C locale). -/
def isWsChar (c : Char) : Bool :=
  c = ' ' ∨ c = '\t' ∨ c = '\n' ∨ c = Char.ofNat 11 ∨ c = Char.ofNat 12 ∨ c = '\r'

/-- ASCII decimal digit test (`[0-9]`). -/
def isDigitChar (c : Char) : Bool := '0' ≤ c ∧ c ≤ '9'

/-- Embedding of `\s*`: drop leading whitespace. -/
def skipWs (cs : List Char) : List Char := cs.dropWhile isWsChar

/-- Embedding of `\s+` followed by `\s*`: require at least one whitespace character,
then drop the rest of the run. -/
def requireWs : List Char → Option (List Char)
  | c :: cs => if isWsChar c then some (skipWs cs) else none
  | [] => none

/-- Read exactly `n` decimal digits, returning their value (the
`std::from_chars` decoding of a fixed-width capture group). -/
def readDigitsAux : Nat → Nat → List Char → Option (Nat × List Char)
  | acc, 0, cs => some (acc, cs)
  | acc, n + 1, c :: cs =>
    if isDigitChar c then readDigitsAux (acc * 10 + (c.toNat - 48)) n cs else none
  | _, _ + 1, [] => none

/-- Read exactly `n` decimal digits. -/
def readFixedDigits (n : Nat) (cs : List Char) : Option (Nat × List Char) :=
  readDigitsAux 0 n cs

/-- Require a specific punctuation character. -/
def expectChar (c : Char) : List Char → Option (List Char)
  | x :: cs => if x = c then some cs else none
  | [] => none

/-- Decimal value of a digit run. -/
def digitsVal (ds : List Char) : Nat :=
  ds.foldl (fun a c => a * 10 + (c.toNat - 48)) 0

/-- A proleptic Gregorian calendar date (std::chrono::year_month_day). -/
structure Date : Type where
  year : Int
  month : Nat
  day : Nat
deriving DecidableEq, Repr

/-- Gregorian leap-year test. -/
def isLeapYear (y : Int) : Bool := (y % 4 = 0 ∧ y % 100 ≠ 0) ∨ y % 400 = 0

/-- Length of a month in the proleptic Gregorian calendar. -/
def daysInMonth (y : Int) (m : Nat) : Nat :=
  match m with
  | 1 => 31
  | 2 => if isLeapYear y then 29 else 28
  | 3 => 31
  | 4 => 30
  | 5 => 31
  | 6 => 30
  | 7 => 31
  | 8 => 31
  | 9 => 30
  | 10 => 31
  | 11 => 30
  | 12 => 31
  | _ => 0

/-- Embedding of `std::chrono::year_month_day::ok()`: the year is within the
representable range, the month is 1..12 and the day exists in that
month. -/
def Date.ok (dt : Date) : Bool :=
  -32767 ≤ dt.year ∧ dt.year ≤ 32767 ∧
    1 ≤ dt.month ∧ dt.month ≤ 12 ∧ 1 ≤ dt.day ∧ dt.day ≤ daysInMonth dt.year dt.month

/-- The capture groups of `CalendarConverter::stringToDate`'s pattern
`^\s*([0-9]{4})\s*-\s*([0-9]{2})\s*-\s*([0-9]{2})\s*$`. -/
def parseDateComponents (s : String) : Option (Int × Nat × Nat) := do
  let (y, cs1) ← readFixedDigits 4 (skipWs s.data)
  let cs2 ← expectChar '-' (skipWs cs1)
  let (mo, cs3) ← readFixedDigits 2 (skipWs cs2)
  let cs4 ← expectChar '-' (skipWs cs3)
  let (dy, cs5) ← readFixedDigits 2 (skipWs cs4)
  if skipWs cs5 = [] then some ((y : Int), mo, dy) else none

/-- Embedding of `CalendarConverter::stringToDate`: match the pattern, decode the
components, construct the date and reject it when
`year_month_day::ok()` fails. -/
def stringToDate (s : String) : Except Err Date :=
  match parseDateComponents s with
  | none => .error (.conversionErrorFromString s)
  | some (y, mo, dy) =>
    if (Date.ok ⟨y, mo, dy⟩ : Bool) then .ok ⟨y, mo, dy⟩
    else .error .invalidDate

/-- C7.  `stringToDate` tolerates arbitrary whitespace around each
`-`-separated field, so `stringToDate("  9999 - 12 - 31 ")` yields
`Date(9999, 12, 31)`; and after parsing, every impossible calendar date
is rejected with the invalid-date error, so every successfully returned
date satisfies `year_month_day::ok()`. -/
theorem stringToDate_spec :
    stringToDate "  9999 - 12 - 31 " = .ok ⟨9999, 12, 31⟩ ∧
    (∀ (s : String) (y : Int) (mo dy : Nat),
      parseDateComponents s = some (y, mo, dy) →
      ¬ (Date.ok ⟨y, mo, dy⟩ : Bool) →
      stringToDate s = .error .invalidDate) ∧
    (∀ (s : String) (dt : Date), stringToDate s = .ok dt → (Date.ok dt : Bool)) := by
  refine ⟨by decide, ?_, ?_⟩
  · intro s y mo dy hparse hbad
    rw [stringToDate, hparse]
    exact if_neg hbad
  · intro s dt h
    rw [stringToDate] at h
    split at h
    · exact absurd h (by simp)
    · split at h
      · cases h
        assumption
      · exact absurd h (by simp)

/-- Closed instance of `stringToDate_spec`: February 30 is parsed by the
grammar but rejected as an invalid date. -/
theorem stringToDate_spec_witness :
    parseDateComponents "2024-02-30" = some (2024, 2, 30) ∧
      ¬ (Date.ok ⟨2024, 2, 30⟩ : Bool) ∧
      stringToDate "2024-02-30" = .error .invalidDate :=
  ⟨by decide, by decide,
    stringToDate_spec.2.1 "2024-02-30" 2024 2 30 (by decide) (by decide)⟩

/-! ## Calendar instants and the opaque tick encoding

`Modelled from the spec:` the opaque tick encode/decode primitives
(`IUtil::encodeDate`, `decodeDate`, `encodeTime`, `decodeTime`) live in
the external Firebird client library, not in this repository.  The
repository itself fixes their meaning through the constants it uses to
interpret them (`CalendarConverter`'s `BASE_EPOCH = 1858-11-17` and
`TICKS_PER_DAY = 24*60*60*10000`): an opaque date is the day count from
1858-11-17 in the proleptic Gregorian calendar and an opaque time is the
count of 100-microsecond ticks since midnight.  `daysFromCivil` /
`civilFromDays` are the standard proleptic-Gregorian serial-day
conversions (day 0 = 1970-01-01). -/

/-- Serial day number (1970-01-01 = 0) of a proleptic Gregorian date. -/
def daysFromCivil (y : Int) (m d : Nat) : Int :=
  let yAdj : Int := if m ≤ 2 then y - 1 else y
  let era : Int := (if 0 ≤ yAdj then yAdj else yAdj - 399).tdiv 400
  let yoe : Int := yAdj - era * 400
  let mp : Int := if 2 < m then (m : Int) - 3 else (m : Int) + 9
  let doy : Int := (153 * mp + 2).tdiv 5 + (d : Int) - 1
  let doe : Int := yoe * 365 + yoe.tdiv 4 - yoe.tdiv 100 + doy
  era * 146097 + doe - 719468

/-- Proleptic Gregorian date of a serial day number (inverse of
`daysFromCivil`). -/
def civilFromDays (z : Int) : Int × Nat × Nat :=
  let z2 : Int := z + 719468
  let era : Int := (if 0 ≤ z2 then z2 else z2 - 146096).tdiv 146097
  let doe : Int := z2 - era * 146097
  let yoe : Int := (doe - doe.tdiv 1460 + doe.tdiv 36524 - doe.tdiv 146096).tdiv 365
  let yAdj : Int := yoe + era * 400
  let doy : Int := doe - (365 * yoe + yoe.tdiv 4 - yoe.tdiv 100)
  let mp : Int := (5 * doy + 2).tdiv 153
  let d : Int := doy - (153 * mp + 2).tdiv 5 + 1
  let m : Int := if mp < 10 then mp + 3 else mp - 9
  ((if m ≤ 2 then yAdj + 1 else yAdj), m.toNat, d.toNat)

/-- Serial day number of the Firebird opaque-date epoch 1858-11-17
(Modified Julian Day 0). -/
def mjdEpochDays : Int := daysFromCivil 1858 11 17

/-- Modelled from the spec: `IUtil::encodeDate` — opaque date value of
a civil date (days since 1858-11-17). -/
def encodeDate (y : Int) (m d : Nat) : Int := daysFromCivil y m d - mjdEpochDays

/-- Modelled from the spec: `IUtil::decodeDate` — civil date of an
opaque date value. -/
def decodeDate (n : Int) : Int × Nat × Nat := civilFromDays (n + mjdEpochDays)

/-- Modelled from the spec: `IUtil::encodeTime` — opaque time value
(100-microsecond ticks since midnight) from components. -/
def encodeTime (h mi se fr : Nat) : Int :=
  (((h * 60 + mi) * 60 + se) * 10000 + fr : Nat)

/-- Modelled from the spec: `IUtil::decodeTime` — components
(hours, minutes, seconds, 100-microsecond fraction ticks) of an opaque
time value. -/
def decodeTime (t : Int) : Nat × Nat × Nat × Nat :=
  ((t.tdiv 36000000).toNat, ((t.tdiv 600000).tmod 60).toNat,
    ((t.tdiv 10000).tmod 60).toNat, (t.tmod 10000).toNat)

/-- A decomposed timestamp: a civil date plus the time of day in
microseconds (`Timestamp` from src/lib/types.h, whose `Time` component
is `std::chrono::hh_mm_ss<std::chrono::microseconds>`). -/
structure Timestamp : Type where
  date : Date
  timeMicros : Int
deriving DecidableEq, Repr

/-- Embedding of `Timestamp::toLocalTime()`: microseconds since 1970-01-01 00:00. -/
def Timestamp.toLocalMicros (ts : Timestamp) : Int :=
  daysFromCivil ts.date.year ts.date.month ts.date.day * 86400000000 + ts.timeMicros

/-- Embedding of `Timestamp::fromLocalTime()`: floor to days, then split date and
time of day. -/
def Timestamp.fromLocalMicros (t : Int) : Timestamp :=
  let days := t.fdiv 86400000000
  let c := civilFromDays days
  ⟨⟨c.1, c.2.1, c.2.2⟩, t - days * 86400000000⟩

/-- Embedding of `TimestampTz` from src/lib/types.h: the UTC-normalised timestamp
plus the verbatim zone identifier. -/
structure TimestampTz : Type where
  utcTimestamp : Timestamp
  zone : String
deriving DecidableEq, Repr

/-- Firebird `ISC_TIMESTAMP_TZ` as used by the embedding: the opaque
UTC date and time parts plus an abstract zone handle. -/
structure OpqTimestampTz : Type where
  utcDate : Int
  utcTime : Int
  zoneId : Nat
deriving DecidableEq, Repr

/-- Embedding of `CalendarConverter::dateToOpaqueDate`: reject a date that fails
`ok()`; the `yearValue <= 0` test compares an unsigned copy of the
year, so of the remaining values it rejects exactly year 0. -/
def dateToOpqDate (dt : Date) : Except Err Int :=
  if ¬ (Date.ok dt : Bool) then .error .invalidDate
  else if dt.year = 0 then .error .invalidDate
  else .ok (encodeDate dt.year dt.month dt.day)

/-- Embedding of `CalendarConverter::opaqueTimestampToTimestamp`: decode both opaque
parts, rebuild the date and fail with invalid-timestamp when it does not
satisfy `ok()`. -/
def opqTimestampToTimestamp (od ot : Int) : Except Err Timestamp :=
  let c := decodeDate od
  let t := decodeTime ot
  let timeOfDay : Int :=
    ((t.1 * 3600 + t.2.1 * 60 + t.2.2.1) * 1000000 + t.2.2.2 * 100 : Nat)
  if ¬ (Date.ok ⟨c.1, c.2.1, c.2.2⟩ : Bool) then .error .invalidTimestamp
  else .ok ⟨⟨c.1, c.2.1, c.2.2⟩, timeOfDay⟩

/-- Embedding of `CalendarConverter::timestampToOpaqueTimestamp`: validate the date,
encode it, validate the time of day (within one day, subseconds on the
100-microsecond grid) and encode the time. -/
def timestampToOpqTimestamp (ts : Timestamp) : Except Err (Int × Int) :=
  if ¬ (Date.ok ts.date : Bool) then .error .invalidTimestamp
  else
    match dateToOpqDate ts.date with
    | .error e => .error e
    | .ok od =>
      if ts.timeMicros < 0 ∨ 86400000000 ≤ ts.timeMicros then .error .invalidTimestamp
      else if (ts.timeMicros.tmod 1000000).tmod 100 ≠ 0 then .error .invalidTimestamp
      else
        .ok (od, encodeTime (ts.timeMicros.tdiv 3600000000).toNat
          (((ts.timeMicros.tdiv 60000000).tmod 60).toNat)
          (((ts.timeMicros.tdiv 1000000).tmod 60).toNat)
          (((ts.timeMicros.tmod 1000000).tdiv 100).toNat))

/-- The external engine interface used by the zone-aware conversions:
`IUtil::encodeTimeStampTz` (components plus zone name to opaque UTC
parts and a zone handle) and `IUtil::decodeTimeStampTz` (opaque parts to
local wall-clock components and the zone name).  Both may fail through
the status wrapper; the claims quantify over every engine behaviour. -/
structure ZoneEngine : Type where
  encodeTsTz : Int → Nat → Nat → Nat → Nat → Nat → Nat → String →
    Except Err (Int × Int × Nat)
  decodeTsTz : Int → Int → Nat →
    Except Err (Int × Nat × Nat × Nat × Nat × Nat × Nat × String)

/-- Time of day in microseconds from parsed components (`fr` counts
100-microsecond ticks). -/
def todMicros (h mi se fr : Nat) : Int :=
  ((h * 3600 + mi * 60 + se) * 1000000 + fr * 100 : Nat)

/-- Embedding of `[^\s]+\s*$` after a mandatory `\s+`: the zone suffix capture. -/
def parseZoneEnd (cs : List Char) : Option String :=
  match requireWs cs with
  | none => none
  | some cs1 =>
    let z := cs1.takeWhile (fun c => ¬ isWsChar c)
    let rest := cs1.dropWhile (fun c => ¬ isWsChar c)
    if z = [] then none
    else if skipWs rest = [] then some ⟨z⟩ else none

/-- Embedding of `\s*\.\s*([0-9]{1,4})`: the optional fraction capture, scaled to
100-microsecond ticks by the `fractions *= 10` loop. -/
def parseFrac (cs : List Char) : Option (Nat × List Char) :=
  match expectChar '.' (skipWs cs) with
  | none => none
  | some cs1 =>
    let cs2 := skipWs cs1
    let ds := (cs2.takeWhile isDigitChar).take 4
    if ds = [] then none
    else some (digitsVal ds * 10 ^ (4 - ds.length), cs2.drop ds.length)

/-- The tail `(?:\s*\.\s*([0-9]{1,4}))?\s+([^\s]+)\s*$` of the zone-aware
patterns, with the regex backtracking of the optional group. -/
def parseFracZone (cs : List Char) : Option (Nat × String) :=
  match parseFrac cs with
  | some (f, rest) =>
    match parseZoneEnd rest with
    | some z => some (f, z)
    | none =>
      match parseZoneEnd cs with
      | some z => some (0, z)
      | none => none
  | none =>
    match parseZoneEnd cs with
    | some z => some (0, z)
    | none => none

/-- The capture groups of `CalendarConverter::stringToTimestampTz`'s
pattern. -/
structure TsTzComps : Type where
  year : Int
  month : Nat
  day : Nat
  hours : Nat
  minutes : Nat
  seconds : Nat
  fractions : Nat
  zone : String
deriving DecidableEq, Repr

/-- Parse
`^\s*([0-9]{4})\s*-\s*([0-9]{2})\s*-\s*([0-9]{2})\s+([0-9]{2})\s*:\s*([0-9]{2})\s*:\s*([0-9]{2})(?:\s*\.\s*([0-9]{1,4}))?\s+([^\s]+)\s*$`. -/
def parseTsTzComponents (s : String) : Option TsTzComps := do
  let (y, cs1) ← readFixedDigits 4 (skipWs s.data)
  let cs2 ← expectChar '-' (skipWs cs1)
  let (mo, cs3) ← readFixedDigits 2 (skipWs cs2)
  let cs4 ← expectChar '-' (skipWs cs3)
  let (dy, cs5) ← readFixedDigits 2 (skipWs cs4)
  let cs6 ← requireWs cs5
  let (hh, cs7) ← readFixedDigits 2 cs6
  let cs8 ← expectChar ':' (skipWs cs7)
  let (mi, cs9) ← readFixedDigits 2 (skipWs cs8)
  let cs10 ← expectChar ':' (skipWs cs9)
  let (se, cs11) ← readFixedDigits 2 (skipWs cs10)
  let (fr, zone) ← parseFracZone cs11
  some ⟨(y : Int), mo, dy, hh, mi, se, fr, zone⟩

/-- Embedding of `CalendarConverter::stringToTimestampTz`: parse and validate the
wall-clock components, let the engine resolve the zone to a UTC instant,
require the local-to-UTC difference to be a whole number of minutes, and
return the UTC timestamp with the engine-resolved zone name. -/
def stringToTimestampTz (E : ZoneEngine) (str : String) : Except Err TimestampTz :=
  match parseTsTzComponents str with
  | none => .error (.conversionErrorFromString str)
  | some c =>
    if ¬ (Date.ok ⟨c.year, c.month, c.day⟩ : Bool) then .error .invalidTimestamp
    else if 24 ≤ c.hours ∨ 60 ≤ c.minutes ∨ 60 ≤ c.seconds then .error .invalidTimestamp
    else if 86400000000 ≤ todMicros c.hours c.minutes c.seconds c.fractions then
      .error .invalidTimestamp
    else
      match E.encodeTsTz c.year c.month c.day c.hours c.minutes c.seconds
          c.fractions c.zone with
      | .error e => .error e
      | .ok (ud, ut, zid) =>
        match opqTimestampToTimestamp ud ut with
        | .error e => .error e
        | .ok utcTs =>
          if (Timestamp.toLocalMicros
                ⟨⟨c.year, c.month, c.day⟩, todMicros c.hours c.minutes c.seconds c.fractions⟩ -
              utcTs.toLocalMicros).tmod 60000000 ≠ 0 then
            .error .invalidTimestamp
          else
            match E.decodeTsTz ud ut zid with
            | .error e => .error e
            | .ok dec => .ok ⟨utcTs, dec.2.2.2.2.2.2.2⟩

/-- Embedding of `CalendarConverter::timestampTzToOpaqueTimestampTz`: resolve the
zone handle through a dummy encode, then store the opaque UTC
timestamp. -/
def timestampTzToOpqTimestampTz (E : ZoneEngine) (tz : TimestampTz) :
    Except Err OpqTimestampTz :=
  match E.encodeTsTz 1 1 1 0 0 0 0 tz.zone with
  | .error e => .error e
  | .ok (_, _, zid) =>
    match timestampToOpqTimestamp tz.utcTimestamp with
    | .error e => .error e
    | .ok (od, ot) => .ok ⟨od, ot, zid⟩

/-- Embedding of `CalendarConverter::stringToOpaqueTimestampTz`. -/
def stringToOpqTimestampTz (E : ZoneEngine) (s : String) : Except Err OpqTimestampTz :=
  match stringToTimestampTz E s with
  | .error e => .error e
  | .ok tz => timestampTzToOpqTimestampTz E tz

/-- Digits of a natural number, most significant first. -/
def natToChars (n : Nat) : List Char := (digitLoop n).reverse.map digitChar

/-- Embedding of `std::format` zero-padded decimal field (`{:0Nd}`). -/
def padNum (w n : Nat) : String :=
  ⟨List.replicate (w - (natToChars n).length) '0' ++ natToChars n⟩

/-- Embedding of `CalendarConverter::opaqueTimestampTzToString`: decode through the
engine and format `YYYY-MM-DD HH:MM:SS.ffff zone`. -/
def opqTimestampTzToString (E : ZoneEngine) (o : OpqTimestampTz) :
    Except Err String :=
  match E.decodeTsTz o.utcDate o.utcTime o.zoneId with
  | .error e => .error e
  | .ok (y, mo, dy, h, mi, se, fr, name) =>
    .ok (padNum 4 y.toNat ++ "-" ++ padNum 2 mo ++ "-" ++ padNum 2 dy ++ " " ++
      padNum 2 h ++ ":" ++ padNum 2 mi ++ ":" ++ padNum 2 se ++ "." ++
      padNum 4 fr ++ " " ++ name)

/-- Modelled from the spec: the engine's zone database entry for
America/Sao_Paulo, which since the 2019 abolition of daylight saving is
a fixed -03:00 offset (minute-granular, as the spec requires of
historical zone offsets): UTC = local + 3 h. -/
def spOffsetMicros : Int := -10800000000

/-- Modelled from the spec: an engine implementing the single zone
America/Sao_Paulo with the fixed -03:00 offset, using the opaque tick
encoding fixed by `BASE_EPOCH` / `TICKS_PER_DAY`. -/
def spEngine : ZoneEngine where
  encodeTsTz := fun y mo dy h mi se fr zone =>
    if zone = "America/Sao_Paulo" then
      let localMicros := daysFromCivil y mo dy * 86400000000 + todMicros h mi se fr
      let utcMicros := localMicros - spOffsetMicros
      let days := utcMicros.fdiv 86400000000
      .ok (days - mjdEpochDays, (utcMicros - days * 86400000000).tdiv 100, 0)
    else .error (.delegateFailure zone)
  decodeTsTz := fun od ot _ =>
    let utcMicros := (od + mjdEpochDays) * 86400000000 + ot * 100
    let localMicros := utcMicros + spOffsetMicros
    let days := localMicros.fdiv 86400000000
    let c := civilFromDays days
    let t := localMicros - days * 86400000000
    .ok (c.1, c.2.1, c.2.2, (t.tdiv 3600000000).toNat,
      ((t.tdiv 60000000).tmod 60).toNat, ((t.tdiv 1000000).tmod 60).toNat,
      ((t.tmod 1000000).tdiv 100).toNat, "America/Sao_Paulo")

/-- Round-trip composition: parse a zone-aware timestamp string to the
opaque form, then format it back. -/
def tsTzRoundTrip (E : ZoneEngine) (s : String) : Except Err String :=
  match stringToOpqTimestampTz E s with
  | .error e => .error e
  | .ok o => opqTimestampTzToString E o

/-- An engine that resolves every zone to a fixed opaque UTC instant
(1858-11-17 00:00:00.0003), used to exercise the whole-minute
validation against a sub-minute divergence. -/
def skewEngine : ZoneEngine where
  encodeTsTz := fun _ _ _ _ _ _ _ _ => .ok (0, 3, 0)
  decodeTsTz := fun _ _ _ => .ok (1858, 11, 17, 0, 0, 0, 0, "X")

/-- C5.  For every engine behaviour, a timestamp-with-zone string is
accepted only when the parsed local wall clock differs from the
engine-computed UTC timestamp by an exact whole number of minutes; when
the divergence is not minute-granular the conversion fails with the
invalid-timestamp error; and with the Sao Paulo zone model (fixed
-03:00 offset) the example string round-trips through the opaque form
back to itself. -/
theorem timestampTz_whole_minute_offset :
    (∀ (E : ZoneEngine) (s : String) (tz : TimestampTz),
        stringToTimestampTz E s = .ok tz →
        ∃ c : TsTzComps, parseTsTzComponents s = some c ∧
          (Timestamp.toLocalMicros ⟨⟨c.year, c.month, c.day⟩,
              todMicros c.hours c.minutes c.seconds c.fractions⟩ -
            tz.utcTimestamp.toLocalMicros).tmod 60000000 = 0) ∧
    (∀ (E : ZoneEngine) (s : String) (c : TsTzComps) (ud ut : Int) (zid : Nat)
        (utcTs : Timestamp),
        parseTsTzComponents s = some c →
        E.encodeTsTz c.year c.month c.day c.hours c.minutes c.seconds
          c.fractions c.zone = .ok (ud, ut, zid) →
        opqTimestampToTimestamp ud ut = .ok utcTs →
        (Date.ok ⟨c.year, c.month, c.day⟩ : Bool) →
        ¬ (24 ≤ c.hours ∨ 60 ≤ c.minutes ∨ 60 ≤ c.seconds) →
        ¬ (86400000000 ≤ todMicros c.hours c.minutes c.seconds c.fractions) →
        (Timestamp.toLocalMicros ⟨⟨c.year, c.month, c.day⟩,
            todMicros c.hours c.minutes c.seconds c.fractions⟩ -
          utcTs.toLocalMicros).tmod 60000000 ≠ 0 →
        stringToTimestampTz E s = .error .invalidTimestamp) ∧
    tsTzRoundTrip spEngine "2024-02-29 13:14:15.1234 America/Sao_Paulo" =
      .ok "2024-02-29 13:14:15.1234 America/Sao_Paulo" := by
  refine ⟨?_, ?_, by decide⟩
  · intro E s tz h
    rw [stringToTimestampTz] at h
    split at h
    · exact absurd h (by simp)
    rename_i c hp
    split at h
    · exact absurd h (by simp)
    split at h
    · exact absurd h (by simp)
    split at h
    · exact absurd h (by simp)
    split at h
    · exact absurd h (by simp)
    rename_i ud ut zid henc
    split at h
    · exact absurd h (by simp)
    rename_i utcTs hopq
    split at h
    · exact absurd h (by simp)
    rename_i hdiv
    split at h
    · exact absurd h (by simp)
    cases h
    push_neg at hdiv
    exact ⟨c, hp, hdiv⟩
  · intro E s c ud ut zid utcTs hparse henc hopq hok hhours htod hdiv
    rw [stringToTimestampTz, hparse]
    simp only [if_neg (not_not_intro hok), if_neg hhours, if_neg htod, henc, hopq,
      if_pos hdiv]

/-- Closed instance of `timestampTz_whole_minute_offset`: the skewed
engine produces a 13:14:14.9997-away-from-minute divergence and the
conversion fails with invalid-timestamp, while a successful Sao Paulo
conversion exhibits a whole-minute (exactly 3 h) offset. -/
theorem timestampTz_whole_minute_offset_witness :
    stringToTimestampTz skewEngine "2024-02-29 13:14:15.1234 UTC" =
        .error .invalidTimestamp ∧
      ∃ c : TsTzComps,
        parseTsTzComponents "2024-02-29 13:14:15.1234 America/Sao_Paulo" = some c ∧
          (Timestamp.toLocalMicros ⟨⟨c.year, c.month, c.day⟩,
              todMicros c.hours c.minutes c.seconds c.fractions⟩ -
            Timestamp.toLocalMicros ⟨⟨2024, 2, 29⟩, 58455123400⟩).tmod 60000000 = 0 :=
  ⟨timestampTz_whole_minute_offset.2.1 skewEngine "2024-02-29 13:14:15.1234 UTC"
      ⟨2024, 2, 29, 13, 14, 15, 1234, "UTC"⟩ 0 3 0 ⟨⟨1858, 11, 17⟩, 300⟩
      (by decide) (by decide) (by decide) (by decide) (by decide) (by decide) (by decide),
    timestampTz_whole_minute_offset.1 spEngine
      "2024-02-29 13:14:15.1234 America/Sao_Paulo"
      ⟨⟨⟨2024, 2, 29⟩, 58455123400⟩, "America/Sao_Paulo"⟩ (by decide)⟩

/-! ## Message buffers and Statement accessors (src/lib/Statement.h)

The message buffer is a byte region addressed through the descriptors'
offsets; it is modelled as a `List Nat` of byte values with
little-endian two's-complement integer cells (writes beyond the
allocated length would be out-of-bounds in the C++ and are no-ops
here).  The 2-byte null flag holds `FB_TRUE = 1` for null and
`FB_FALSE = 0` for present.  Conversions that involve IEEE floats or
the Boost decimal-float types carry machine-level floating-point
semantics; they appear as fields of the `Ext` oracle record and the
theorems quantify over every behaviour of those fields. -/

/-- A message buffer: one byte value per address. -/
abbrev Msg : Type := List Nat

/-- Read one byte (`0` beyond the end, standing for an arbitrary
out-of-bounds read that the well-formedness hypotheses exclude). -/
def readByte (m : Msg) (i : Nat) : Nat := m.getD i 0

/-- Write one byte (no-op beyond the end). -/
def writeByte (m : Msg) (i : Nat) (v : Nat) : Msg := m.set i v

/-- Write consecutive bytes starting at `i`. -/
def writeBytesAt (m : Msg) (i : Nat) : List Nat → Msg
  | [] => m
  | b :: rest => writeBytesAt (m.set i b) (i + 1) rest

/-- Read `n` consecutive bytes starting at `i`. -/
def readBytes (m : Msg) (i n : Nat) : List Nat :=
  (List.range n).map (fun k => readByte m (i + k))

/-- Two's-complement representative of `v` in `w` bits. -/
def toTwos (w : Nat) (v : Int) : Nat := (v % ((2 : Int) ^ w)).toNat

/-- Signed value of a `w`-bit two's-complement representative. -/
def fromTwos (w : Nat) (u : Nat) : Int :=
  if u < 2 ^ (w - 1) then (u : Int) else (u : Int) - (2 : Int) ^ w

/-- Little-endian bytes of the `8*n`-bit two's-complement form of `v`. -/
def encBytes (n : Nat) (v : Int) : List Nat :=
  (List.range n).map (fun k => toTwos (8 * n) v / 256 ^ k % 256)

/-- Value of a little-endian byte list. -/
def decBytesLE (bs : List Nat) : Nat := bs.foldr (fun b acc => acc * 256 + b) 0

/-- Read a signed 16-bit little-endian integer. -/
def read16 (m : Msg) (o : Nat) : Int := fromTwos 16 (decBytesLE (readBytes m o 2))

/-- Write a signed 16-bit little-endian integer. -/
def write16 (m : Msg) (o : Nat) (v : Int) : Msg := writeBytesAt m o (encBytes 2 v)

/-- Embedding of `Descriptor` from src/lib/Descriptor.h (the `originalType` field is
not read by any embedded operation and is omitted). -/
structure Descriptor : Type where
  adjustedType : DescriptorAdjustedType
  scale : Int
  length : Nat
  offset : Nat
  nullOffset : Nat
  isNullable : Bool
deriving DecidableEq, Repr

/-- The slice of `Statement` state the accessors operate on: the
descriptor array and the message buffer for one direction. -/
structure Stmt : Type where
  descriptors : List Descriptor
  message : Msg
deriving DecidableEq, Repr

/-- Embedding of `Statement::getInDescriptor` / `getOutDescriptor`: bounds-checked
descriptor lookup (`std::out_of_range` on a bad index). -/
def getDescriptor (ds : List Descriptor) (index : Nat) : Except Err Descriptor :=
  match ds[index]? with
  | some d => .ok d
  | none => .error .outOfRange

/-- The conversion-target types `T` with which `Statement` instantiates
`convertNumber<T>` / `numberToNumber<T>`. -/
inductive NumTarget : Type
  | i16
  | i32
  | i64
  | i128
  | flt
  | dbl
  | dec16
  | dec34
deriving DecidableEq, Repr

/-- Whether the target is an integral type. -/
def NumTarget.isIntegral : NumTarget → Bool
  | .i16 | .i32 | .i64 | .i128 => true
  | _ => false

/-- Destination minimum for integral targets. -/
def NumTarget.min : NumTarget → Int
  | .i16 => i16Min
  | .i32 => i32Min
  | .i64 => i64Min
  | _ => i128Min

/-- Destination maximum for integral targets. -/
def NumTarget.max : NumTarget → Int
  | .i16 => i16Max
  | .i32 => i32Max
  | .i64 => i64Max
  | _ => i128Max

/-- The adjusted-type tag corresponding to a target, used to tag the
oracle calls for the floating-typed conversions. -/
def NumTarget.tag : NumTarget → DescriptorAdjustedType
  | .i16 => .INT16
  | .i32 => .INT32
  | .i64 => .INT64
  | .i128 => .INT128
  | .flt => .FLOAT
  | .dbl => .DOUBLE
  | .dec16 => .DECFLOAT16
  | .dec34 => .DECFLOAT34

/-- A converted value: integral results are exact integers; results of
floating type are the raw bytes of the target object. -/
inductive NumVal : Type
  | int (v : Int)
  | bytes (b : List Nat)
deriving DecidableEq, Repr

/-- Byte width of a numeric cell of the given adjusted type. -/
def widthBytes : DescriptorAdjustedType → Nat
  | .INT16 => 2
  | .INT32 => 4
  | .INT64 => 8
  | .INT128 => 16
  | .FLOAT => 4
  | .DOUBLE => 8
  | .DECFLOAT16 => 8
  | .DECFLOAT34 => 16
  | _ => 0

/-- The external semantics the accessors depend on but this repository
does not define: IEEE float and Boost decimal-float conversions
(`numberToNumber` overloads with a floating operand), the Boost decimal
object/opaque translations (which call the engine's `fromString`
utility and can fail), `std::from_chars` for `double`, the Boost
decimal-float constructor from text, and the calendar string-to-opaque
conversions used by `setString` (embedded separately for the claims
about them).  The theorems hold for every behaviour of these fields. -/
structure Ext : Type where
  floatingToInt : DescriptorAdjustedType → List Nat → Int → Int → Int → Except Err Int
  intToFloating : DescriptorAdjustedType → Int → Int → Except Err (List Nat)
  floatingToFloating : DescriptorAdjustedType → DescriptorAdjustedType → List Nat →
    Except Err (List Nat)
  decFromOpq : DescriptorAdjustedType → List Nat → Except Err (List Nat)
  decToOpq : DescriptorAdjustedType → List Nat → Except Err (List Nat)
  parseDoubleBytes : String → Option (List Nat)
  parseDec34Bytes : String → Except Err (List Nat)
  calendarStringToBytes : DescriptorAdjustedType → String → Except Err (List Nat)

/-- Dispatch of `convertNumber<T>` once the source value is known to be
an integral `ScaledNumber`: integral targets go through the
integer-to-integer `numberToNumber` with the target's limits, floating
targets through the integral-to-floating overload (modelled by the
oracle). -/
def convertFromIntSource (ext : Ext) (target : NumTarget) (v : Int)
    (srcScale ts : Int) : Except Err NumVal :=
  match target with
  | .i16 | .i32 | .i64 | .i128 =>
    match numberToNumber target.min target.max ⟨v, srcScale⟩ ts with
    | .error e => .error e
    | .ok r => .ok (.int r)
  | _ =>
    match ext.intToFloating target.tag v srcScale with
    | .error e => .error e
    | .ok bs => .ok (.bytes bs)

/-- Dispatch of `convertNumber<T>` for a floating source of adjusted
type `dt` held in `data`. -/
def convertFromFloatingSource (ext : Ext) (target : NumTarget)
    (dt : DescriptorAdjustedType) (data : List Nat) (ts : Int) : Except Err NumVal :=
  if target.isIntegral then
    match ext.floatingToInt dt data ts target.min target.max with
    | .error e => .error e
    | .ok r => .ok (.int r)
  else
    match ext.floatingToFloating dt target.tag data with
    | .error e => .error e
    | .ok bs => .ok (.bytes bs)

/-- Embedding of `Statement::convertNumber<T>`: resolve the requested scale (an
absent scale requests the descriptor's own scale but is an invalid-type
error for the floating descriptor types), then decode the source per
the descriptor's adjusted type and convert to the target.  Returns the
resolved scale (the C++ in/out `std::optional<int>&`) and the value. -/
def convertNumber (ext : Ext) (target : NumTarget) (descriptor : Descriptor)
    (data : List Nat) (toScale : Option Int) (toTypeName : String) :
    Except Err (Int × NumVal) :=
  match (match toScale with
         | some s0 => .ok s0
         | none =>
           match descriptor.adjustedType with
           | .DECFLOAT16 | .DECFLOAT34 | .FLOAT | .DOUBLE =>
             .error (.invalidType toTypeName descriptor.adjustedType)
           | _ => .ok descriptor.scale : Except Err Int) with
  | .error e => .error e
  | .ok ts =>
    match (match descriptor.adjustedType with
           | .INT16 =>
             convertFromIntSource ext target (fromTwos 16 (decBytesLE (data.take 2)))
               descriptor.scale ts
           | .INT32 =>
             convertFromIntSource ext target (fromTwos 32 (decBytesLE (data.take 4)))
               descriptor.scale ts
           | .INT64 =>
             convertFromIntSource ext target (fromTwos 64 (decBytesLE (data.take 8)))
               descriptor.scale ts
           | .INT128 =>
             convertFromIntSource ext target (fromTwos 128 (decBytesLE (data.take 16)))
               descriptor.scale ts
           | .FLOAT => convertFromFloatingSource ext target .FLOAT (data.take 4) ts
           | .DOUBLE => convertFromFloatingSource ext target .DOUBLE (data.take 8) ts
           | .DECFLOAT16 => convertFromFloatingSource ext target .DECFLOAT16 data ts
           | .DECFLOAT34 => convertFromFloatingSource ext target .DECFLOAT34 data ts
           | _ => .error (.invalidType toTypeName descriptor.adjustedType) :
             Except Err NumVal) with
    | .error e => .error e
    | .ok v => .ok (ts, v)

/-- Embedding of `Statement::getNumber<T>`: look up the descriptor, return null
immediately when the null flag is set, otherwise translate the cell
bytes and hand them to `convertNumber`.  The INT128 and DECFLOAT cells
are first translated from their opaque forms: for INT128 that
composition equals decoding the 16 little-endian bytes; for the
decimal floats it is the oracle's object translation
(`opaqueDecFloat*ToBoostDecFloat*`), which runs before `convertNumber`
and can itself fail — its exception propagates before any type check. -/
def getNumber (ext : Ext) (st : Stmt) (index : Nat) (target : NumTarget)
    (toScale : Option Int) (typeName : String) :
    Except Err (Option (Int × NumVal)) :=
  match getDescriptor st.descriptors index with
  | .error e => .error e
  | .ok d =>
    if read16 st.message d.nullOffset ≠ 0 then .ok none
    else
      match (match d.adjustedType with
             | .DECFLOAT16 =>
               ext.decFromOpq .DECFLOAT16 ((readBytes st.message d.offset 16).take 8)
             | .DECFLOAT34 =>
               ext.decFromOpq .DECFLOAT34 (readBytes st.message d.offset 16)
             | _ => .ok (readBytes st.message d.offset 16) : Except Err (List Nat)) with
      | .error e => .error e
      | .ok data =>
        match convertNumber ext target d data toScale typeName with
        | .error e => .error e
        | .ok r => .ok (some r)

/-- Embedding of `Statement::getBool`: null check first, then the type switch. -/
def getBool (st : Stmt) (index : Nat) : Except Err (Option Bool) :=
  match getDescriptor st.descriptors index with
  | .error e => .error e
  | .ok d =>
    if read16 st.message d.nullOffset ≠ 0 then .ok none
    else
      match d.adjustedType with
      | .BOOLEAN => .ok (some (readByte st.message d.offset ≠ 0))
      | _ => .error (.invalidType "bool" d.adjustedType)

/-- Result of a set accessor: on an exception the buffer the caller
observes is paired with the error (the embedding threads it so that the
theorems can speak about mutations before a throw). -/
abbrev SetResult : Type := Except (Err × Msg) Msg

/-- Embedding of `Statement::setNull`: set the null flag to `FB_TRUE`. -/
def setNull (st : Stmt) (index : Nat) : SetResult :=
  match getDescriptor st.descriptors index with
  | .error e => .error (e, st.message)
  | .ok d => .ok (write16 st.message d.nullOffset 1)

/-- Shared ending of every non-delegating set accessor: a failed value
conversion/write propagates with the buffer untouched, a successful one
is followed by clearing the null flag to `FB_FALSE`. -/
def finishSet (st : Stmt) (d : Descriptor) (r : Except Err Msg) : SetResult :=
  match r with
  | .error e => .error (e, st.message)
  | .ok m1 => .ok (write16 m1 d.nullOffset 0)

/-- Embedding of `Statement::setBool`. -/
def setBool (st : Stmt) (index : Nat) (optValue : Option Bool) : SetResult :=
  match optValue with
  | none => setNull st index
  | some value =>
    match getDescriptor st.descriptors index with
    | .error e => .error (e, st.message)
    | .ok d =>
      match d.adjustedType with
      | .BOOLEAN =>
        finishSet st d
          (.ok (writeByte st.message d.offset (if value then 1 else 0)))
      | _ => .error (.invalidType "bool" d.adjustedType, st.message)

/-- Bytes of the set value as laid out at the address `setNumber` takes
(`encBytes` for the integral types mirrors their in-memory form; values
of floating type are already raw bytes). -/
def valueLayout (valueType : DescriptorAdjustedType) : NumVal → List Nat
  | .int v => encBytes (widthBytes valueType) v
  | .bytes b => b

/-- Bytes written into the message cell for a converted value of the
given width (integral results in two's-complement little-endian form —
for INT128 this equals `boostInt128ToOpaqueInt128` — floating results
verbatim). -/
def numValBytes (w : Nat) : NumVal → List Nat
  | .int v => encBytes w v
  | .bytes b => b

/-- The value-region writing switch of `Statement::setNumber`: convert
the value per the descriptor's adjusted type and write the result into
the cell (for the decimal floats through the engine's object-to-opaque
translation, which can also fail).  Fails with the invalid-type error
for non-numeric descriptor types. -/
def setNumberWritten (ext : Ext) (d : Descriptor) (m : Msg)
    (valueType : DescriptorAdjustedType) (value : NumVal) (scale : Int)
    (typeName : String) : Except Err Msg :=
  let valueDescriptor : Descriptor :=
    { adjustedType := valueType, scale := scale, length := 0, offset := 0,
      nullOffset := 0, isNullable := false }
  let data := valueLayout valueType value
  let descriptorScale : Option Int := some d.scale
  match d.adjustedType with
  | .INT16 =>
    match convertNumber ext .i16 valueDescriptor data descriptorScale "std::int16_t" with
    | .error e => .error e
    | .ok (_, v) => .ok (writeBytesAt m d.offset (numValBytes 2 v))
  | .INT32 =>
    match convertNumber ext .i32 valueDescriptor data descriptorScale "std::int32_t" with
    | .error e => .error e
    | .ok (_, v) => .ok (writeBytesAt m d.offset (numValBytes 4 v))
  | .INT64 =>
    match convertNumber ext .i64 valueDescriptor data descriptorScale "std::int64_t" with
    | .error e => .error e
    | .ok (_, v) => .ok (writeBytesAt m d.offset (numValBytes 8 v))
  | .INT128 =>
    match convertNumber ext .i128 valueDescriptor data descriptorScale "BoostInt128" with
    | .error e => .error e
    | .ok (_, v) => .ok (writeBytesAt m d.offset (numValBytes 16 v))
  | .FLOAT =>
    match convertNumber ext .flt valueDescriptor data descriptorScale "float" with
    | .error e => .error e
    | .ok (_, v) => .ok (writeBytesAt m d.offset (numValBytes 4 v))
  | .DOUBLE =>
    match convertNumber ext .dbl valueDescriptor data descriptorScale "double" with
    | .error e => .error e
    | .ok (_, v) => .ok (writeBytesAt m d.offset (numValBytes 8 v))
  | .DECFLOAT16 =>
    match convertNumber ext .dec16 valueDescriptor data descriptorScale "BoostDecFloat16" with
    | .error e => .error e
    | .ok (_, v) =>
      match ext.decToOpq .DECFLOAT16 (numValBytes 8 v) with
      | .error e => .error e
      | .ok ob => .ok (writeBytesAt m d.offset ob)
  | .DECFLOAT34 =>
    match convertNumber ext .dec34 valueDescriptor data descriptorScale "BoostDecFloat34" with
    | .error e => .error e
    | .ok (_, v) =>
      match ext.decToOpq .DECFLOAT34 (numValBytes 16 v) with
      | .error e => .error e
      | .ok ob => .ok (writeBytesAt m d.offset ob)
  | _ => .error (.invalidType typeName d.adjustedType)

/-- Embedding of `Statement::setNumber`: descriptor lookup, the value-region writing
switch, and only then the null-flag clear. -/
def setNumber (ext : Ext) (st : Stmt) (index : Nat)
    (valueType : DescriptorAdjustedType) (value : NumVal) (scale : Int)
    (typeName : String) : SetResult :=
  match getDescriptor st.descriptors index with
  | .error e => .error (e, st.message)
  | .ok d => finishSet st d (setNumberWritten ext d st.message valueType value scale typeName)

/-- Embedding of `std::tolower` in the C locale (ASCII). -/
def toLowerChar (c : Char) : Char :=
  if 'A' ≤ c ∧ c ≤ 'Z' then Char.ofNat (c.toNat + 32) else c

/-- Embedding of `NumericConverter::stringToBoolean`: trim whitespace on both sides,
lower-case, and accept exactly the literals `true` and `false`
(returning the stored byte), otherwise fail with the
conversion-error-from-string status. -/
def stringToBoolean (value : String) : Except Err Nat :=
  let trimmed := ((value.data.dropWhile isWsChar).reverse.dropWhile isWsChar).reverse
  let normalized := trimmed.map toLowerChar
  if normalized = "true".data then .ok 1
  else if normalized = "false".data then .ok 0
  else .error (.conversionErrorFromString value)

/-- Index of the last occurrence of `c` (`std::string::find_last_of`). -/
def lastIdxOf (c : Char) (cs : List Char) : Option Nat :=
  match cs.reverse.findIdx? (· = c) with
  | some k => some (cs.length - 1 - k)
  | none => none

/-- The decimal-literal parser of `Statement::setString`'s exact-numeric
branch (`parseDecimalToBoostInt128`): an optional sign followed by a
nonempty digit run; anything else throws (numeric-out-of-range, per the
code's current error choice).  The accumulator is `BoostInt128`, an
unchecked signed-magnitude 128-bit type, so every
`result *= 10; result += digit` step truncates the magnitude modulo
2^128; over the all-nonnegative accumulation that composes to the digit
value modulo 2^128, with the sign applied at the end. -/
def parseDecimalInt (cs : List Char) : Except Err Int :=
  let signed : Bool × List Char :=
    match cs with
    | c :: rest =>
      if c = '+' then (false, rest)
      else if c = '-' then (true, rest)
      else (false, cs)
    | [] => (false, [])
  if signed.2 = [] then .error .numericRange
  else if signed.2.all isDigitChar then
    .ok ((if signed.1 then -1 else 1) * ((digitsVal signed.2 % 2 ^ 128 : Nat) : Int))
  else .error .numericRange

/-- The exact-numeric branch of `Statement::setString`: strip the last
`.`, count the fractional digits after it into a negative scale, parse
the digits, rescale to the descriptor's scale when they differ, and
delegate to the scaled-integer `setNumber` path. -/
def setStringIntBranch (ext : Ext) (st : Stmt) (index : Nat) (d : Descriptor)
    (value : String) : SetResult :=
  let cs := value.data
  let parts : Int × List Char :=
    match lastIdxOf '.' cs with
    | some dotPos =>
      (-(((cs.drop (dotPos + 1)).takeWhile isDigitChar).length : Int),
        cs.take dotPos ++ cs.drop (dotPos + 1))
    | none => (0, cs)
  match parseDecimalInt parts.2 with
  | .error e => .error (e, st.message)
  | .ok parsed =>
    if parts.1 ≠ d.scale then
      match numberToNumber i128Min i128Max ⟨parsed, parts.1⟩ d.scale with
      | .error e => .error (e, st.message)
      | .ok v2 => setNumber ext st index .INT128 (.int v2) d.scale "ScaledBoostInt128"
    else setNumber ext st index .INT128 (.int parsed) parts.1 "ScaledBoostInt128"

/-- Embedding of `Statement::setString`: the generic accessor routing per the
descriptor's adjusted type — boolean literals, the exact-numeric parse,
`std::from_chars` for the approximate types (both via `setNumber`,
which clears the flag itself), the calendar string conversions, the
decimal-float constructor, and the length-checked string copy. -/
def setString (ext : Ext) (st : Stmt) (index : Nat) (optValue : Option String) :
    SetResult :=
  match optValue with
  | none => setNull st index
  | some value =>
    match getDescriptor st.descriptors index with
    | .error e => .error (e, st.message)
    | .ok d =>
      match d.adjustedType with
      | .BOOLEAN =>
        finishSet st d
          (match stringToBoolean value with
           | .error e => .error e
           | .ok b => .ok (writeByte st.message d.offset b))
      | .INT16 | .INT32 | .INT64 | .INT128 => setStringIntBranch ext st index d value
      | .FLOAT | .DOUBLE =>
        match ext.parseDoubleBytes value with
        | none => .error (.numericRange, st.message)
        | some db => setNumber ext st index .DOUBLE (.bytes db) 0 "double"
      | .DATE =>
        finishSet st d
          (match ext.calendarStringToBytes .DATE value with
           | .error e => .error e
           | .ok bs => .ok (writeBytesAt st.message d.offset bs))
      | .TIME =>
        finishSet st d
          (match ext.calendarStringToBytes .TIME value with
           | .error e => .error e
           | .ok bs => .ok (writeBytesAt st.message d.offset bs))
      | .TIMESTAMP =>
        finishSet st d
          (match ext.calendarStringToBytes .TIMESTAMP value with
           | .error e => .error e
           | .ok bs => .ok (writeBytesAt st.message d.offset bs))
      | .TIME_TZ =>
        finishSet st d
          (match ext.calendarStringToBytes .TIME_TZ value with
           | .error e => .error e
           | .ok bs => .ok (writeBytesAt st.message d.offset bs))
      | .TIMESTAMP_TZ =>
        finishSet st d
          (match ext.calendarStringToBytes .TIMESTAMP_TZ value with
           | .error e => .error e
           | .ok bs => .ok (writeBytesAt st.message d.offset bs))
      | .DECFLOAT16 | .DECFLOAT34 =>
        match ext.parseDec34Bytes value with
        | .error e => .error (e, st.message)
        | .ok bb => setNumber ext st index .DECFLOAT34 (.bytes bb) 0 "BoostDecFloat34"
      | .STRING =>
        if d.length < value.length then .error (.stringTruncation, st.message)
        else
          finishSet st d
            (.ok (writeBytesAt
              (writeBytesAt st.message d.offset (encBytes 2 (value.length : Int)))
              (d.offset + 2) (value.data.map Char.toNat)))
      | _ => .error (.invalidType "std::string_view" d.adjustedType, st.message)

/-- Embedding of `Statement::setBlobId`: exact-match type check, write the 8-byte
blob identifier, then clear the flag. -/
def setBlobId (st : Stmt) (index : Nat) (optValue : Option (List Nat)) : SetResult :=
  match optValue with
  | none => setNull st index
  | some id =>
    match getDescriptor st.descriptors index with
    | .error e => .error (e, st.message)
    | .ok d =>
      match d.adjustedType with
      | .BLOB => finishSet st d (.ok (writeBytesAt st.message d.offset (id.take 8)))
      | _ => .error (.invalidType "BlobId" d.adjustedType, st.message)

/-- Embedding of `Statement::setInt16`. -/
def setInt16 (ext : Ext) (st : Stmt) (index : Nat) (optValue : Option Int) : SetResult :=
  match optValue with
  | none => setNull st index
  | some v => setNumber ext st index .INT16 (.int v) 0 "std::int16_t"

/-- Embedding of `Statement::setInt32`. -/
def setInt32 (ext : Ext) (st : Stmt) (index : Nat) (optValue : Option Int) : SetResult :=
  match optValue with
  | none => setNull st index
  | some v => setNumber ext st index .INT32 (.int v) 0 "std::int32_t"

/-- Embedding of `Statement::setInt64`. -/
def setInt64 (ext : Ext) (st : Stmt) (index : Nat) (optValue : Option Int) : SetResult :=
  match optValue with
  | none => setNull st index
  | some v => setNumber ext st index .INT64 (.int v) 0 "std::int64_t"

/-- Embedding of `Statement::setScaledInt32`. -/
def setScaledInt32 (ext : Ext) (st : Stmt) (index : Nat)
    (optValue : Option ScaledNumber) : SetResult :=
  match optValue with
  | none => setNull st index
  | some v => setNumber ext st index .INT32 (.int v.value) v.scale "ScaledInt32"

/-- Embedding of `Statement::setDouble` (the value is the raw 8-byte object). -/
def setDouble (ext : Ext) (st : Stmt) (index : Nat) (optValue : Option (List Nat)) :
    SetResult :=
  match optValue with
  | none => setNull st index
  | some v => setNumber ext st index .DOUBLE (.bytes v) 0 "double"

/-- Embedding of `TimeTz` from src/lib/types.h: the UTC-normalised time of day
(the `hh_mm_ss<microseconds>` duration, in microseconds) plus the
verbatim zone identifier. -/
structure TimeTz : Type where
  utcMicros : Int
  zone : String
deriving DecidableEq, Repr

/-- Embedding of `CalendarConverter::timeToOpaqueTime`: split the time-of-day
microseconds into components (subsecond microseconds truncated to
100-microsecond units) and encode through the engine's tick encoding. -/
def timeToOpqTime (t : Nat) : Int :=
  encodeTime (t / 3600000000) (t / 60000000 % 60) (t / 1000000 % 60) (t % 1000000 / 100)

/-- Embedding of `CalendarConverter::timeTzToOpaqueTimeTz`: reject a negative
time-of-day, one of a whole day or more, and one not on the
100-microsecond grid; then resolve the zone handle through the engine's
`encodeTimeTz` call with a zero time (modelled by the `encZone` oracle)
and store the UTC ticks directly. -/
def timeTzToOpqTimeTz (encZone : String → Except Err Nat) (tz : TimeTz) :
    Except Err (Int × Nat) :=
  if tz.utcMicros < 0 then .error .invalidTime
  else if 86400000000 ≤ tz.utcMicros then .error .invalidTime
  else if tz.utcMicros.tmod 100 ≠ 0 then .error .invalidTime
  else
    match encZone tz.zone with
    | .error e => .error e
    | .ok zid => .ok (tz.utcMicros.tdiv 100, zid)

/-- Embedding of `Statement::setDate`: only a DATE column accepts the converted
opaque date (4-byte cell); every other adjusted type fails with the
invalid-type error before any write. -/
def setDate (st : Stmt) (index : Nat) (optValue : Option Date) : SetResult :=
  match optValue with
  | none => setNull st index
  | some value =>
    match getDescriptor st.descriptors index with
    | .error e => .error (e, st.message)
    | .ok d =>
      match d.adjustedType with
      | .DATE =>
        finishSet st d
          (match dateToOpqDate value with
           | .error e => .error e
           | .ok od => .ok (writeBytesAt st.message d.offset (encBytes 4 od)))
      | _ => .error (.invalidType "Date" d.adjustedType, st.message)

/-- Embedding of `Statement::setOpaqueDate`: the raw `ISC_DATE` value, DATE
columns only. -/
def setOpqDate (st : Stmt) (index : Nat) (optValue : Option Int) : SetResult :=
  match optValue with
  | none => setNull st index
  | some value =>
    match getDescriptor st.descriptors index with
    | .error e => .error (e, st.message)
    | .ok d =>
      match d.adjustedType with
      | .DATE => finishSet st d (.ok (writeBytesAt st.message d.offset (encBytes 4 value)))
      | _ => .error (.invalidType "OpaqueDate" d.adjustedType, st.message)

/-- Embedding of `Statement::setTime` (the value is the time-of-day
microseconds): TIME columns only. -/
def setTime (st : Stmt) (index : Nat) (optValue : Option Nat) : SetResult :=
  match optValue with
  | none => setNull st index
  | some value =>
    match getDescriptor st.descriptors index with
    | .error e => .error (e, st.message)
    | .ok d =>
      match d.adjustedType with
      | .TIME =>
        finishSet st d
          (.ok (writeBytesAt st.message d.offset (encBytes 4 (timeToOpqTime value))))
      | _ => .error (.invalidType "Time" d.adjustedType, st.message)

/-- Embedding of `Statement::setOpaqueTime`: the raw `ISC_TIME` value, TIME
columns only. -/
def setOpqTime (st : Stmt) (index : Nat) (optValue : Option Int) : SetResult :=
  match optValue with
  | none => setNull st index
  | some value =>
    match getDescriptor st.descriptors index with
    | .error e => .error (e, st.message)
    | .ok d =>
      match d.adjustedType with
      | .TIME => finishSet st d (.ok (writeBytesAt st.message d.offset (encBytes 4 value)))
      | _ => .error (.invalidType "OpaqueTime" d.adjustedType, st.message)

/-- Embedding of `Statement::setTimestamp`: TIMESTAMP columns only; the
converted opaque date and time parts form the 8-byte cell. -/
def setTimestamp (st : Stmt) (index : Nat) (optValue : Option Timestamp) : SetResult :=
  match optValue with
  | none => setNull st index
  | some value =>
    match getDescriptor st.descriptors index with
    | .error e => .error (e, st.message)
    | .ok d =>
      match d.adjustedType with
      | .TIMESTAMP =>
        finishSet st d
          (match timestampToOpqTimestamp value with
           | .error e => .error e
           | .ok (od, ot) =>
             .ok (writeBytesAt st.message d.offset (encBytes 4 od ++ encBytes 4 ot)))
      | _ => .error (.invalidType "Timestamp" d.adjustedType, st.message)

/-- Embedding of `Statement::setOpaqueTimestamp`: the raw `ISC_TIMESTAMP`
date and time parts, TIMESTAMP columns only. -/
def setOpqTimestamp (st : Stmt) (index : Nat) (optValue : Option (Int × Int)) :
    SetResult :=
  match optValue with
  | none => setNull st index
  | some value =>
    match getDescriptor st.descriptors index with
    | .error e => .error (e, st.message)
    | .ok d =>
      match d.adjustedType with
      | .TIMESTAMP =>
        finishSet st d
          (.ok (writeBytesAt st.message d.offset
            (encBytes 4 value.1 ++ encBytes 4 value.2)))
      | _ => .error (.invalidType "OpaqueTimestamp" d.adjustedType, st.message)

/-- Embedding of `Statement::setTimeTz`: TIME_TZ columns only; the converted
opaque value is the 4-byte UTC ticks followed by the 2-byte zone
handle. -/
def setTimeTz (encZone : String → Except Err Nat) (st : Stmt) (index : Nat)
    (optValue : Option TimeTz) : SetResult :=
  match optValue with
  | none => setNull st index
  | some value =>
    match getDescriptor st.descriptors index with
    | .error e => .error (e, st.message)
    | .ok d =>
      match d.adjustedType with
      | .TIME_TZ =>
        finishSet st d
          (match timeTzToOpqTimeTz encZone value with
           | .error e => .error e
           | .ok (tk, zid) =>
             .ok (writeBytesAt st.message d.offset
               (encBytes 4 tk ++ encBytes 2 (zid : Int))))
      | _ => .error (.invalidType "TimeTz" d.adjustedType, st.message)

/-- Embedding of `Statement::setOpaqueTimeTz`: the raw `ISC_TIME_TZ` ticks and
zone handle, TIME_TZ columns only. -/
def setOpqTimeTz (st : Stmt) (index : Nat) (optValue : Option (Int × Nat)) :
    SetResult :=
  match optValue with
  | none => setNull st index
  | some value =>
    match getDescriptor st.descriptors index with
    | .error e => .error (e, st.message)
    | .ok d =>
      match d.adjustedType with
      | .TIME_TZ =>
        finishSet st d
          (.ok (writeBytesAt st.message d.offset
            (encBytes 4 value.1 ++ encBytes 2 (value.2 : Int))))
      | _ => .error (.invalidType "OpaqueTimeTz" d.adjustedType, st.message)

/-- Embedding of `Statement::setTimestampTz`: TIMESTAMP_TZ columns only; the
converted opaque value is the UTC date and time parts followed by the
zone handle. -/
def setTimestampTz (E : ZoneEngine) (st : Stmt) (index : Nat)
    (optValue : Option TimestampTz) : SetResult :=
  match optValue with
  | none => setNull st index
  | some value =>
    match getDescriptor st.descriptors index with
    | .error e => .error (e, st.message)
    | .ok d =>
      match d.adjustedType with
      | .TIMESTAMP_TZ =>
        finishSet st d
          (match timestampTzToOpqTimestampTz E value with
           | .error e => .error e
           | .ok o =>
             .ok (writeBytesAt st.message d.offset
               (encBytes 4 o.utcDate ++ encBytes 4 o.utcTime ++
                 encBytes 2 (o.zoneId : Int))))
      | _ => .error (.invalidType "TimestampTz" d.adjustedType, st.message)

/-- Embedding of `Statement::setOpaqueTimestampTz`: the raw `ISC_TIMESTAMP_TZ`
parts, TIMESTAMP_TZ columns only. -/
def setOpqTimestampTz (st : Stmt) (index : Nat) (optValue : Option OpqTimestampTz) :
    SetResult :=
  match optValue with
  | none => setNull st index
  | some value =>
    match getDescriptor st.descriptors index with
    | .error e => .error (e, st.message)
    | .ok d =>
      match d.adjustedType with
      | .TIMESTAMP_TZ =>
        finishSet st d
          (.ok (writeBytesAt st.message d.offset
            (encBytes 4 value.utcDate ++ encBytes 4 value.utcTime ++
              encBytes 2 (value.zoneId : Int))))
      | _ => .error (.invalidType "OpaqueTimestampTz" d.adjustedType, st.message)

/-- Embedding of `Statement::setOpaqueInt128`: the raw 16-byte `FB_I128` value,
INT128 columns only. -/
def setOpqInt128 (st : Stmt) (index : Nat) (optValue : Option (List Nat)) :
    SetResult :=
  match optValue with
  | none => setNull st index
  | some value =>
    match getDescriptor st.descriptors index with
    | .error e => .error (e, st.message)
    | .ok d =>
      match d.adjustedType with
      | .INT128 =>
        finishSet st d (.ok (writeBytesAt st.message d.offset (value.take 16)))
      | _ => .error (.invalidType "OpaqueInt128" d.adjustedType, st.message)

/-- Embedding of `Statement::setOpaqueDecFloat16`: the raw 8-byte `FB_DEC16`
value, DECFLOAT16 columns only. -/
def setOpqDecFloat16 (st : Stmt) (index : Nat) (optValue : Option (List Nat)) :
    SetResult :=
  match optValue with
  | none => setNull st index
  | some value =>
    match getDescriptor st.descriptors index with
    | .error e => .error (e, st.message)
    | .ok d =>
      match d.adjustedType with
      | .DECFLOAT16 =>
        finishSet st d (.ok (writeBytesAt st.message d.offset (value.take 8)))
      | _ => .error (.invalidType "OpaqueDecFloat16" d.adjustedType, st.message)

/-- Embedding of `Statement::setOpaqueDecFloat34`: the raw 16-byte `FB_DEC34`
value, DECFLOAT34 columns only. -/
def setOpqDecFloat34 (st : Stmt) (index : Nat) (optValue : Option (List Nat)) :
    SetResult :=
  match optValue with
  | none => setNull st index
  | some value =>
    match getDescriptor st.descriptors index with
    | .error e => .error (e, st.message)
    | .ok d =>
      match d.adjustedType with
      | .DECFLOAT34 =>
        finishSet st d (.ok (writeBytesAt st.message d.offset (value.take 16)))
      | _ => .error (.invalidType "OpaqueDecFloat34" d.adjustedType, st.message)

/-- One call to a set accessor whose value type names exactly one
Firebird column type (the descriptor must match it exactly), with a
present value. -/
inductive ExactSetCall : Type
  | bool (v : Bool)
  | blob (id : List Nat)
  | date (v : Date)
  | opqDate (v : Int)
  | time (v : Nat)
  | opqTime (v : Int)
  | timestamp (v : Timestamp)
  | opqTimestamp (v : Int × Int)
  | timeTz (encZone : String → Except Err Nat) (v : TimeTz)
  | opqTimeTz (v : Int × Nat)
  | timestampTz (E : ZoneEngine) (v : TimestampTz)
  | opqTimestampTz (v : OpqTimestampTz)
  | opqInt128 (v : List Nat)
  | opqDecFloat16 (v : List Nat)
  | opqDecFloat34 (v : List Nat)

/-- The single adjusted type each exact-match accessor's switch accepts
(the non-default case of the corresponding `Statement::set*` switch). -/
def ExactSetCall.requiredType : ExactSetCall → DescriptorAdjustedType
  | .bool _ => .BOOLEAN
  | .blob _ => .BLOB
  | .date _ => .DATE
  | .opqDate _ => .DATE
  | .time _ => .TIME
  | .opqTime _ => .TIME
  | .timestamp _ => .TIMESTAMP
  | .opqTimestamp _ => .TIMESTAMP
  | .timeTz _ _ => .TIME_TZ
  | .opqTimeTz _ => .TIME_TZ
  | .timestampTz _ _ => .TIMESTAMP_TZ
  | .opqTimestampTz _ => .TIMESTAMP_TZ
  | .opqInt128 _ => .INT128
  | .opqDecFloat16 _ => .DECFLOAT16
  | .opqDecFloat34 _ => .DECFLOAT34

/-- The actual-type name each accessor passes to `throwInvalidType`. -/
def ExactSetCall.typeName : ExactSetCall → String
  | .bool _ => "bool"
  | .blob _ => "BlobId"
  | .date _ => "Date"
  | .opqDate _ => "OpaqueDate"
  | .time _ => "Time"
  | .opqTime _ => "OpaqueTime"
  | .timestamp _ => "Timestamp"
  | .opqTimestamp _ => "OpaqueTimestamp"
  | .timeTz _ _ => "TimeTz"
  | .opqTimeTz _ => "OpaqueTimeTz"
  | .timestampTz _ _ => "TimestampTz"
  | .opqTimestampTz _ => "OpaqueTimestampTz"
  | .opqInt128 _ => "OpaqueInt128"
  | .opqDecFloat16 _ => "OpaqueDecFloat16"
  | .opqDecFloat34 _ => "OpaqueDecFloat34"

/-- Run one exact-match set-accessor call. -/
def runExactSet (st : Stmt) (index : Nat) : ExactSetCall → SetResult
  | .bool v => setBool st index (some v)
  | .blob id => setBlobId st index (some id)
  | .date v => setDate st index (some v)
  | .opqDate v => setOpqDate st index (some v)
  | .time v => setTime st index (some v)
  | .opqTime v => setOpqTime st index (some v)
  | .timestamp v => setTimestamp st index (some v)
  | .opqTimestamp v => setOpqTimestamp st index (some v)
  | .timeTz encZone v => setTimeTz encZone st index (some v)
  | .opqTimeTz v => setOpqTimeTz st index (some v)
  | .timestampTz E v => setTimestampTz E st index (some v)
  | .opqTimestampTz v => setOpqTimestampTz st index (some v)
  | .opqInt128 v => setOpqInt128 st index (some v)
  | .opqDecFloat16 v => setOpqDecFloat16 st index (some v)
  | .opqDecFloat34 v => setOpqDecFloat34 st index (some v)

/-- One call to a set accessor with a present value (the null argument
goes through `setNull` instead and writes only the flag). -/
inductive SetCall : Type
  | bool (v : Bool)
  | number (valueType : DescriptorAdjustedType) (value : NumVal) (scale : Int)
    (typeName : String)
  | str (s : String)
  | blob (id : List Nat)

/-- Run one set-accessor call. -/
def runSet (ext : Ext) (st : Stmt) (index : Nat) : SetCall → SetResult
  | .bool v => setBool st index (some v)
  | .number vt v sc tn => setNumber ext st index vt v sc tn
  | .str s => setString ext st index (some s)
  | .blob id => setBlobId st index (some id)

/-! ## Facts about the accessor layer -/

theorem writeBytesAt_length (bs : List Nat) : ∀ (m : Msg) (i : Nat),
    (writeBytesAt m i bs).length = m.length := by
  induction bs with
  | nil => intro m i; rfl
  | cons b rest ih =>
    intro m i
    show (writeBytesAt (m.set i b) (i + 1) rest).length = m.length
    rw [ih, List.length_set]

theorem readByte_set_eq (m : Msg) (i v : Nat) (h : i < m.length) :
    readByte (m.set i v) i = v := by
  rw [readByte, List.getD_eq_getElem?_getD, List.getElem?_set_self (by omega)]
  rfl

theorem readByte_set_ne (m : Msg) (i j v : Nat) (h : i ≠ j) :
    readByte (m.set i v) j = readByte m j := by
  rw [readByte, readByte, List.getD_eq_getElem?_getD, List.getElem?_set_ne h,
    List.getD_eq_getElem?_getD]

theorem read16_write16_zero (m : Msg) (o : Nat) (h : o + 2 ≤ m.length) :
    read16 (write16 m o 0) o = 0 := by
  have hw : write16 m o 0 = (m.set o 0).set (o + 1) 0 := rfl
  have hb0 : readByte ((m.set o 0).set (o + 1) 0) o = 0 := by
    rw [readByte_set_ne _ _ _ _ (by omega), readByte_set_eq _ _ _ (by omega)]
  have hb1 : readByte ((m.set o 0).set (o + 1) 0) (o + 1) = 0 := by
    rw [readByte_set_eq]
    rw [List.length_set]
    omega
  have hr : readBytes ((m.set o 0).set (o + 1) 0) o 2 = [0, 0] := by
    simp [readBytes, List.range_succ, hb0, hb1]
  rw [read16, hw, hr]
  rfl

theorem finishSet_error (st : Stmt) (d : Descriptor) (r : Except Err Msg)
    (e : Err) (m2 : Msg) (h : finishSet st d r = .error (e, m2)) :
    m2 = st.message := by
  cases r with
  | error e2 =>
    simp only [finishSet] at h
    cases h
    rfl
  | ok m1 => simp [finishSet] at h

theorem finishSet_ok (st : Stmt) (d : Descriptor) (r : Except Err Msg)
    (m2 : Msg) (h : finishSet st d r = .ok m2) :
    ∃ m1, r = .ok m1 ∧ m2 = write16 m1 d.nullOffset 0 := by
  cases r with
  | error e2 => simp [finishSet] at h
  | ok m1 =>
    simp only [finishSet] at h
    cases h
    exact ⟨m1, rfl, rfl⟩

theorem upLoop_error_eq (minLimit maxLimit : Int) : ∀ (n : Nat) (v : Int) (e : Err),
    upLoop minLimit maxLimit v n = .error e → e = .numericRange := by
  intro n
  induction n with
  | zero => intro v e h; exact absurd h (by simp [upLoop])
  | succ k ih =>
    intro v e h
    rw [upLoop] at h
    split at h
    · cases h; rfl
    · split at h
      · cases h; rfl
      · exact ih _ e h

theorem adjustScale_error_eq (val scale minLimit maxLimit : Int) (e : Err)
    (h : adjustScale val scale minLimit maxLimit = .error e) : e = .numericRange := by
  rw [adjustScale] at h
  split at h
  · exact absurd h (by simp)
  · split at h
    · exact upLoop_error_eq minLimit maxLimit _ _ e h
    · exact absurd h (by simp)

theorem numberToNumber_error_eq (toMin toMax : Int) (src : ScaledNumber)
    (toScale : Int) (e : Err)
    (h : numberToNumber toMin toMax src toScale = .error e) : e = .numericRange := by
  rw [numberToNumber] at h
  split at h
  · rename_i heq
    cases h
    split at heq
    · exact adjustScale_error_eq _ _ _ _ _ heq
    · exact absurd heq (by simp)
  · split at h
    · cases h; rfl
    · exact absurd h (by simp)

theorem convertFromIntSource_cases (ext : Ext) (target : NumTarget)
    (htg : target.isIntegral) (v srcScale ts : Int) :
    (∃ r : Int, convertFromIntSource ext target v srcScale ts = .ok (.int r)) ∨
      convertFromIntSource ext target v srcScale ts = .error .numericRange := by
  cases target <;> simp only [NumTarget.isIntegral] at htg <;>
    try exact absurd htg (by decide)
  case i16 =>
    cases hnn : numberToNumber i16Min i16Max ⟨v, srcScale⟩ ts with
    | error e =>
      right
      have he := numberToNumber_error_eq _ _ _ _ _ hnn
      subst he
      simp only [convertFromIntSource, NumTarget.min, NumTarget.max, hnn]
    | ok r =>
      left
      exact ⟨r, by simp only [convertFromIntSource, NumTarget.min, NumTarget.max, hnn]⟩
  case i32 =>
    cases hnn : numberToNumber i32Min i32Max ⟨v, srcScale⟩ ts with
    | error e =>
      right
      have he := numberToNumber_error_eq _ _ _ _ _ hnn
      subst he
      simp only [convertFromIntSource, NumTarget.min, NumTarget.max, hnn]
    | ok r =>
      left
      exact ⟨r, by simp only [convertFromIntSource, NumTarget.min, NumTarget.max, hnn]⟩
  case i64 =>
    cases hnn : numberToNumber i64Min i64Max ⟨v, srcScale⟩ ts with
    | error e =>
      right
      have he := numberToNumber_error_eq _ _ _ _ _ hnn
      subst he
      simp only [convertFromIntSource, NumTarget.min, NumTarget.max, hnn]
    | ok r =>
      left
      exact ⟨r, by simp only [convertFromIntSource, NumTarget.min, NumTarget.max, hnn]⟩
  case i128 =>
    cases hnn : numberToNumber i128Min i128Max ⟨v, srcScale⟩ ts with
    | error e =>
      right
      have he := numberToNumber_error_eq _ _ _ _ _ hnn
      subst he
      simp only [convertFromIntSource, NumTarget.min, NumTarget.max, hnn]
    | ok r =>
      left
      exact ⟨r, by simp only [convertFromIntSource, NumTarget.min, NumTarget.max, hnn]⟩

theorem getDescriptor_ok (ds : List Descriptor) (index : Nat) (d : Descriptor)
    (h : getDescriptor ds index = .ok d) : ds[index]? = some d := by
  rw [getDescriptor] at h
  split at h
  · cases h; assumption
  · exact absurd h (by simp)

theorem setNumberWritten_ok_length (ext : Ext) (d : Descriptor) (m : Msg)
    (vt : DescriptorAdjustedType) (v : NumVal) (sc : Int) (tn : String) (m1 : Msg)
    (h : setNumberWritten ext d m vt v sc tn = .ok m1) : m1.length = m.length := by
  simp only [setNumberWritten] at h
  repeat' split at h
  all_goals
    first
      | (cases h; exact writeBytesAt_length _ _ _)
      | cases h

theorem setNumber_error_msg (ext : Ext) (st : Stmt) (index : Nat)
    (vt : DescriptorAdjustedType) (v : NumVal) (sc : Int) (tn : String)
    (e : Err) (m2 : Msg)
    (h : setNumber ext st index vt v sc tn = .error (e, m2)) : m2 = st.message := by
  simp only [setNumber] at h
  split at h
  · cases h; rfl
  · exact finishSet_error _ _ _ _ _ h

theorem setNumber_ok_shape (ext : Ext) (st : Stmt) (index : Nat)
    (vt : DescriptorAdjustedType) (v : NumVal) (sc : Int) (tn : String) (m2 : Msg)
    (h : setNumber ext st index vt v sc tn = .ok m2) :
    ∃ d m1, st.descriptors[index]? = some d ∧ m1.length = st.message.length ∧
      m2 = write16 m1 d.nullOffset 0 := by
  simp only [setNumber] at h
  split at h
  · exact absurd h (by simp)
  · rename_i d hd
    obtain ⟨m1, hw, rfl⟩ := finishSet_ok _ _ _ _ h
    exact ⟨d, m1, getDescriptor_ok _ _ _ hd,
      setNumberWritten_ok_length _ _ _ _ _ _ _ _ hw, rfl⟩

theorem setBool_error_msg (st : Stmt) (index : Nat) (v : Bool) (e : Err) (m2 : Msg)
    (h : setBool st index (some v) = .error (e, m2)) : m2 = st.message := by
  simp only [setBool] at h
  split at h
  · cases h; rfl
  · split at h
    · exact finishSet_error _ _ _ _ _ h
    · cases h; rfl

theorem setBool_ok_shape (st : Stmt) (index : Nat) (v : Bool) (m2 : Msg)
    (h : setBool st index (some v) = .ok m2) :
    ∃ d m1, st.descriptors[index]? = some d ∧ m1.length = st.message.length ∧
      m2 = write16 m1 d.nullOffset 0 := by
  simp only [setBool] at h
  split at h
  · exact absurd h (by simp)
  · rename_i d hd
    split at h
    · obtain ⟨m1, hw, rfl⟩ := finishSet_ok _ _ _ _ h
      cases hw
      exact ⟨d, _, getDescriptor_ok _ _ _ hd, List.length_set .., rfl⟩
    · exact absurd h (by simp)

theorem setBlobId_error_msg (st : Stmt) (index : Nat) (id : List Nat) (e : Err)
    (m2 : Msg) (h : setBlobId st index (some id) = .error (e, m2)) :
    m2 = st.message := by
  simp only [setBlobId] at h
  split at h
  · cases h; rfl
  · split at h
    · exact finishSet_error _ _ _ _ _ h
    · cases h; rfl

theorem setBlobId_ok_shape (st : Stmt) (index : Nat) (id : List Nat) (m2 : Msg)
    (h : setBlobId st index (some id) = .ok m2) :
    ∃ d m1, st.descriptors[index]? = some d ∧ m1.length = st.message.length ∧
      m2 = write16 m1 d.nullOffset 0 := by
  simp only [setBlobId] at h
  split at h
  · exact absurd h (by simp)
  · rename_i d hd
    split at h
    · obtain ⟨m1, hw, rfl⟩ := finishSet_ok _ _ _ _ h
      cases hw
      exact ⟨d, _, getDescriptor_ok _ _ _ hd, writeBytesAt_length _ _ _, rfl⟩
    · exact absurd h (by simp)

theorem setStringIntBranch_error_msg (ext : Ext) (st : Stmt) (index : Nat)
    (d : Descriptor) (s : String) (e : Err) (m2 : Msg)
    (h : setStringIntBranch ext st index d s = .error (e, m2)) : m2 = st.message := by
  simp only [setStringIntBranch] at h
  repeat' split at h
  all_goals
    first
      | (cases h; rfl)
      | exact setNumber_error_msg _ _ _ _ _ _ _ _ _ h

theorem setStringIntBranch_ok_shape (ext : Ext) (st : Stmt) (index : Nat)
    (d : Descriptor) (s : String) (m2 : Msg)
    (h : setStringIntBranch ext st index d s = .ok m2) :
    ∃ d2 m1, st.descriptors[index]? = some d2 ∧ m1.length = st.message.length ∧
      m2 = write16 m1 d2.nullOffset 0 := by
  simp only [setStringIntBranch] at h
  repeat' split at h
  all_goals
    first
      | cases h
      | exact setNumber_ok_shape _ _ _ _ _ _ _ _ h

theorem setString_error_msg (ext : Ext) (st : Stmt) (index : Nat) (s : String)
    (e : Err) (m2 : Msg)
    (h : setString ext st index (some s) = .error (e, m2)) : m2 = st.message := by
  simp only [setString] at h
  split at h
  · cases h; rfl
  · split at h <;>
      first
        | (cases h; rfl)
        | exact finishSet_error _ _ _ _ _ h
        | exact setStringIntBranch_error_msg _ _ _ _ _ _ _ h
        | (repeat' split at h
           all_goals
             first
               | (cases h; rfl)
               | exact finishSet_error _ _ _ _ _ h
               | exact setNumber_error_msg _ _ _ _ _ _ _ _ _ h)

theorem setString_ok_shape (ext : Ext) (st : Stmt) (index : Nat) (s : String)
    (m2 : Msg) (h : setString ext st index (some s) = .ok m2) :
    ∃ d m1, st.descriptors[index]? = some d ∧ m1.length = st.message.length ∧
      m2 = write16 m1 d.nullOffset 0 := by
  simp only [setString] at h
  split at h
  · exact absurd h (by simp)
  · rename_i d hd
    have hdq := getDescriptor_ok _ _ _ hd
    split at h
    all_goals repeat' split at h
    any_goals
      first
        | cases h
        | exact setStringIntBranch_ok_shape _ _ _ _ _ _ h
        | exact setNumber_ok_shape _ _ _ _ _ _ _ _ h
    all_goals refine ⟨d, _, hdq, ?_, rfl⟩
    all_goals
      first
        | exact List.length_set ..
        | exact writeBytesAt_length _ _ _
        | rw [writeBytesAt_length, writeBytesAt_length]

/-- C1.  For every set accessor called with a present value on any
index: when the conversion or the value write fails, the exception
propagates with the message buffer exactly as it was (the slot keeps
its previous null state, never partial data); when the call succeeds,
the resulting buffer is some value-region update followed — as the very
last write — by setting the 2-byte null flag at the descriptor's
`nullOffset` to `FB_FALSE`, so the flag then reads 0. -/
theorem set_flag_cleared_only_after_success (ext : Ext) (st : Stmt) (index : Nat)
    (call : SetCall) :
    (∀ (e : Err) (m2 : Msg), runSet ext st index call = .error (e, m2) →
      m2 = st.message) ∧
    (∀ m2 : Msg, runSet ext st index call = .ok m2 →
      ∃ d m1, st.descriptors[index]? = some d ∧
        m1.length = st.message.length ∧
        m2 = write16 m1 d.nullOffset 0 ∧
        (d.nullOffset + 2 ≤ st.message.length → read16 m2 d.nullOffset = 0)) := by
  constructor
  · intro e m2 h
    cases call with
    | bool v => exact setBool_error_msg _ _ _ _ _ h
    | number vt v sc tn => exact setNumber_error_msg _ _ _ _ _ _ _ _ _ h
    | str s => exact setString_error_msg _ _ _ _ _ _ h
    | blob id => exact setBlobId_error_msg _ _ _ _ _ h
  · intro m2 h
    have key : ∃ d m1, st.descriptors[index]? = some d ∧
        m1.length = st.message.length ∧ m2 = write16 m1 d.nullOffset 0 := by
      cases call with
      | bool v => exact setBool_ok_shape _ _ _ _ h
      | number vt v sc tn => exact setNumber_ok_shape _ _ _ _ _ _ _ _ h
      | str s => exact setString_ok_shape _ _ _ _ _ h
      | blob id => exact setBlobId_ok_shape _ _ _ _ h
    obtain ⟨d, m1, hd, hlen, rfl⟩ := key
    exact ⟨d, m1, hd, hlen, rfl,
      fun hb => read16_write16_zero m1 d.nullOffset (by omega)⟩

/-- A closed oracle instance (every external conversion unavailable),
used to run the accessors on concrete inputs whose paths do not touch
the floating-point conversions. -/
def noExt : Ext where
  floatingToInt := fun _ _ _ _ _ => .error (.delegateFailure "unavailable")
  intToFloating := fun _ _ _ => .error (.delegateFailure "unavailable")
  floatingToFloating := fun _ _ _ => .error (.delegateFailure "unavailable")
  decFromOpq := fun _ b => .ok b
  decToOpq := fun _ _ => .error (.delegateFailure "unavailable")
  parseDoubleBytes := fun _ => none
  parseDec34Bytes := fun _ => .error (.delegateFailure "unavailable")
  calendarStringToBytes := fun _ _ => .error (.delegateFailure "unavailable")

/-- Closed instance of `set_flag_cleared_only_after_success`: a
successful `setBool` on a buffer with poisoned value bytes ends with
the null flag cleared as the final write. -/
theorem set_flag_cleared_only_after_success_witness :
    runSet noExt ⟨[⟨.BOOLEAN, 0, 1, 0, 2, true⟩], [7, 7, 1, 0]⟩ 0 (.bool true) =
        .ok [1, 7, 0, 0] ∧
      ∃ d m1,
        (⟨[⟨.BOOLEAN, 0, 1, 0, 2, true⟩], [7, 7, 1, 0]⟩ : Stmt).descriptors[0]? = some d ∧
          m1.length =
            (⟨[⟨.BOOLEAN, 0, 1, 0, 2, true⟩], [7, 7, 1, 0]⟩ : Stmt).message.length ∧
          ([1, 7, 0, 0] : Msg) = write16 m1 d.nullOffset 0 ∧
          (d.nullOffset + 2 ≤
              (⟨[⟨.BOOLEAN, 0, 1, 0, 2, true⟩], [7, 7, 1, 0]⟩ : Stmt).message.length →
            read16 [1, 7, 0, 0] d.nullOffset = 0) :=
  ⟨by decide,
    (set_flag_cleared_only_after_success noExt
        ⟨[⟨.BOOLEAN, 0, 1, 0, 2, true⟩], [7, 7, 1, 0]⟩ 0 (.bool true)).2
      [1, 7, 0, 0] (by decide)⟩

/-- C10.  Every get accessor tests the null flag before validating the
descriptor type: on a slot whose null flag is set, `getBool` and the
`getNumber`-based accessors return null no matter how the requested
type relates to the descriptor's adjusted type. -/
theorem get_checks_null_before_type (ext : Ext) (st : Stmt) (index : Nat)
    (d : Descriptor) (target : NumTarget) (toScale : Option Int) (typeName : String)
    (hd : st.descriptors[index]? = some d)
    (hnull : read16 st.message d.nullOffset ≠ 0) :
    getBool st index = .ok none ∧
      getNumber ext st index target toScale typeName = .ok none := by
  constructor
  · simp only [getBool, getDescriptor, hd, if_pos hnull]
  · simp only [getNumber, getDescriptor, hd, if_pos hnull]

/-- Closed instance of `get_checks_null_before_type`: a null INT32 slot
with poisoned value bytes reads as null through the mismatched `getBool`
and 16-bit `getNumber` accessors. -/
theorem get_checks_null_before_type_witness :
    getBool ⟨[⟨.INT32, 0, 4, 0, 4, true⟩], [9, 9, 9, 9, 1, 0]⟩ 0 = .ok none ∧
      getNumber noExt ⟨[⟨.INT32, 0, 4, 0, 4, true⟩], [9, 9, 9, 9, 1, 0]⟩ 0 .i16
        (some 0) "std::int16_t" = .ok none :=
  get_checks_null_before_type noExt ⟨[⟨.INT32, 0, 4, 0, 4, true⟩], [9, 9, 9, 9, 1, 0]⟩
    0 ⟨.INT32, 0, 4, 0, 4, true⟩ .i16 (some 0) "std::int16_t" (by decide) (by decide)

/-- C2 counterexample: a 32-bit integer read of a non-null INT16 column
succeeds by converting across widths (yielding the value 123), where
the claim requires every adjustedType mismatch to fail with the
invalid-type error. -/
theorem get_cross_width_read_succeeds :
    getNumber noExt ⟨[⟨.INT16, 0, 2, 0, 2, true⟩], [123, 0, 0, 0]⟩ 0 .i32 (some 0)
      "std::int32_t" = .ok (some (0, .int 123)) := by decide

/-- Whether the adjusted type is one of the integral numeric types. -/
def DescriptorAdjustedType.isIntegralNum : DescriptorAdjustedType → Bool
  | .INT16 | .INT32 | .INT64 | .INT128 => true
  | _ => false

/-- Whether the adjusted type is one of the approximate numeric types
(IEEE floats and decimal floats). -/
def DescriptorAdjustedType.isApproxNum : DescriptorAdjustedType → Bool
  | .FLOAT | .DOUBLE | .DECFLOAT16 | .DECFLOAT34 => true
  | _ => false

theorem convertNumber_intdesc_cases (ext : Ext) (target : NumTarget)
    (htg : target.isIntegral = true) (d : Descriptor)
    (hdt : d.adjustedType.isIntegralNum = true) (data : List Nat) (s0 : Int)
    (name : String) :
    (∃ r : Int, convertNumber ext target d data (some s0) name = .ok (s0, .int r)) ∨
      convertNumber ext target d data (some s0) name = .error .numericRange := by
  cases hA : d.adjustedType <;> rw [hA] at hdt <;>
    try exact absurd hdt (by decide)
  case INT16 =>
    rcases convertFromIntSource_cases ext target htg
        (fromTwos 16 (decBytesLE (data.take 2))) d.scale s0 with ⟨r, hr⟩ | hr
    · exact Or.inl ⟨r, by simp only [convertNumber, hA, hr]⟩
    · exact Or.inr (by simp only [convertNumber, hA, hr])
  case INT32 =>
    rcases convertFromIntSource_cases ext target htg
        (fromTwos 32 (decBytesLE (data.take 4))) d.scale s0 with ⟨r, hr⟩ | hr
    · exact Or.inl ⟨r, by simp only [convertNumber, hA, hr]⟩
    · exact Or.inr (by simp only [convertNumber, hA, hr])
  case INT64 =>
    rcases convertFromIntSource_cases ext target htg
        (fromTwos 64 (decBytesLE (data.take 8))) d.scale s0 with ⟨r, hr⟩ | hr
    · exact Or.inl ⟨r, by simp only [convertNumber, hA, hr]⟩
    · exact Or.inr (by simp only [convertNumber, hA, hr])
  case INT128 =>
    rcases convertFromIntSource_cases ext target htg
        (fromTwos 128 (decBytesLE (data.take 16))) d.scale s0 with ⟨r, hr⟩ | hr
    · exact Or.inl ⟨r, by simp only [convertNumber, hA, hr]⟩
    · exact Or.inr (by simp only [convertNumber, hA, hr])

theorem setNumberWritten_intint (ext : Ext) (d : Descriptor) (m : Msg)
    (vt : DescriptorAdjustedType) (v : NumVal) (sc : Int) (tn : String)
    (hdt : d.adjustedType.isIntegralNum = true) (hvt : vt.isIntegralNum = true) :
    (∃ m1, setNumberWritten ext d m vt v sc tn = .ok m1) ∨
      setNumberWritten ext d m vt v sc tn = .error .numericRange := by
  cases hA : d.adjustedType <;> rw [hA] at hdt <;>
    try exact absurd hdt (by decide)
  case INT16 =>
    rcases convertNumber_intdesc_cases ext .i16 (by decide)
        ⟨vt, sc, 0, 0, 0, false⟩ hvt (valueLayout vt v) d.scale "std::int16_t"
      with ⟨r, hr⟩ | hr
    · exact Or.inl ⟨writeBytesAt m d.offset (numValBytes 2 (.int r)),
        by simp only [setNumberWritten, hA, hr]⟩
    · exact Or.inr (by simp only [setNumberWritten, hA, hr])
  case INT32 =>
    rcases convertNumber_intdesc_cases ext .i32 (by decide)
        ⟨vt, sc, 0, 0, 0, false⟩ hvt (valueLayout vt v) d.scale "std::int32_t"
      with ⟨r, hr⟩ | hr
    · exact Or.inl ⟨writeBytesAt m d.offset (numValBytes 4 (.int r)),
        by simp only [setNumberWritten, hA, hr]⟩
    · exact Or.inr (by simp only [setNumberWritten, hA, hr])
  case INT64 =>
    rcases convertNumber_intdesc_cases ext .i64 (by decide)
        ⟨vt, sc, 0, 0, 0, false⟩ hvt (valueLayout vt v) d.scale "std::int64_t"
      with ⟨r, hr⟩ | hr
    · exact Or.inl ⟨writeBytesAt m d.offset (numValBytes 8 (.int r)),
        by simp only [setNumberWritten, hA, hr]⟩
    · exact Or.inr (by simp only [setNumberWritten, hA, hr])
  case INT128 =>
    rcases convertNumber_intdesc_cases ext .i128 (by decide)
        ⟨vt, sc, 0, 0, 0, false⟩ hvt (valueLayout vt v) d.scale "BoostInt128"
      with ⟨r, hr⟩ | hr
    · exact Or.inl ⟨writeBytesAt m d.offset (numValBytes 16 (.int r)),
        by simp only [setNumberWritten, hA, hr]⟩
    · exact Or.inr (by simp only [setNumberWritten, hA, hr])

/-- C2 (amended).  The set accessors whose value type names exactly one
Firebird column type — `setBool`, `setBlobId`, the calendar setters
`setDate`/`setTime`/`setTimestamp`/`setTimeTz`/`setTimestampTz` and the
opaque setters (`setOpaqueDate`, `setOpaqueTime`, `setOpaqueTimestamp`,
`setOpaqueTimeTz`, `setOpaqueTimestampTz`, `setOpaqueInt128`,
`setOpaqueDecFloat16`, `setOpaqueDecFloat34`) — require an exact
adjusted-type match: on any other descriptor type they fail with the
invalid-type error naming the accessor's type and the descriptor type,
leaving the buffer untouched; likewise `getBool` on a non-null slot of
any other type, and `setString` on the descriptor types it does not
support.  The numeric accessors do not require an exact match: an
integral `getNumber` or `setNumber` access of an integral column of any
width converts across widths and scales, either succeeding or failing
with numeric-out-of-range (never invalid-type).  They raise the
invalid-type error (naming both types) when the descriptor type is
outside the numeric family; a scale-reporting read raises it on a FLOAT
or DOUBLE column unconditionally, and on a DECFLOAT column once the
opaque-to-decimal object translation — which runs before the type check
and whose own failure propagates instead — has succeeded. -/
theorem accessor_type_checking :
    (∀ (ext : Ext) (st : Stmt) (index : Nat) (d : Descriptor) (target : NumTarget)
        (s0 : Int) (name : String),
        st.descriptors[index]? = some d →
        d.adjustedType.isIntegralNum = true →
        target.isIntegral = true →
        read16 st.message d.nullOffset = 0 →
        (∃ r, getNumber ext st index target (some s0) name = .ok (some r)) ∨
          getNumber ext st index target (some s0) name = .error .numericRange) ∧
    (∀ (ext : Ext) (st : Stmt) (index : Nat) (d : Descriptor) (target : NumTarget)
        (ts : Option Int) (name : String),
        st.descriptors[index]? = some d →
        d.adjustedType.isIntegralNum = false →
        d.adjustedType.isApproxNum = false →
        read16 st.message d.nullOffset = 0 →
        getNumber ext st index target ts name =
          .error (.invalidType name d.adjustedType)) ∧
    (∀ (ext : Ext) (st : Stmt) (index : Nat) (d : Descriptor) (target : NumTarget)
        (name : String),
        st.descriptors[index]? = some d →
        (d.adjustedType = .FLOAT ∨ d.adjustedType = .DOUBLE) →
        read16 st.message d.nullOffset = 0 →
        getNumber ext st index target none name =
          .error (.invalidType name d.adjustedType)) ∧
    (∀ (ext : Ext) (st : Stmt) (index : Nat) (d : Descriptor) (target : NumTarget)
        (name : String) (bb : List Nat),
        st.descriptors[index]? = some d →
        d.adjustedType = .DECFLOAT16 →
        ext.decFromOpq .DECFLOAT16 ((readBytes st.message d.offset 16).take 8) =
          .ok bb →
        read16 st.message d.nullOffset = 0 →
        getNumber ext st index target none name =
          .error (.invalidType name d.adjustedType)) ∧
    (∀ (ext : Ext) (st : Stmt) (index : Nat) (d : Descriptor) (target : NumTarget)
        (name : String) (bb : List Nat),
        st.descriptors[index]? = some d →
        d.adjustedType = .DECFLOAT34 →
        ext.decFromOpq .DECFLOAT34 (readBytes st.message d.offset 16) = .ok bb →
        read16 st.message d.nullOffset = 0 →
        getNumber ext st index target none name =
          .error (.invalidType name d.adjustedType)) ∧
    (∀ (ext : Ext) (st : Stmt) (index : Nat) (d : Descriptor) (target : NumTarget)
        (ts : Option Int) (name : String) (e : Err),
        st.descriptors[index]? = some d →
        d.adjustedType = .DECFLOAT16 →
        ext.decFromOpq .DECFLOAT16 ((readBytes st.message d.offset 16).take 8) =
          .error e →
        read16 st.message d.nullOffset = 0 →
        getNumber ext st index target ts name = .error e) ∧
    (∀ (ext : Ext) (st : Stmt) (index : Nat) (d : Descriptor) (target : NumTarget)
        (ts : Option Int) (name : String) (e : Err),
        st.descriptors[index]? = some d →
        d.adjustedType = .DECFLOAT34 →
        ext.decFromOpq .DECFLOAT34 (readBytes st.message d.offset 16) = .error e →
        read16 st.message d.nullOffset = 0 →
        getNumber ext st index target ts name = .error e) ∧
    (∀ (st : Stmt) (index : Nat) (d : Descriptor),
        st.descriptors[index]? = some d →
        d.adjustedType ≠ .BOOLEAN →
        read16 st.message d.nullOffset = 0 →
        getBool st index = .error (.invalidType "bool" d.adjustedType)) ∧
    (∀ (ext : Ext) (st : Stmt) (index : Nat) (d : Descriptor)
        (vt : DescriptorAdjustedType) (v : NumVal) (sc : Int) (tn : String),
        st.descriptors[index]? = some d →
        d.adjustedType.isIntegralNum = true →
        vt.isIntegralNum = true →
        (∃ m2, setNumber ext st index vt v sc tn = .ok m2) ∨
          setNumber ext st index vt v sc tn = .error (.numericRange, st.message)) ∧
    (∀ (ext : Ext) (st : Stmt) (index : Nat) (d : Descriptor)
        (vt : DescriptorAdjustedType) (v : NumVal) (sc : Int) (tn : String),
        st.descriptors[index]? = some d →
        d.adjustedType.isIntegralNum = false →
        d.adjustedType.isApproxNum = false →
        setNumber ext st index vt v sc tn =
          .error (.invalidType tn d.adjustedType, st.message)) ∧
    (∀ (st : Stmt) (index : Nat) (d : Descriptor) (call : ExactSetCall),
        st.descriptors[index]? = some d →
        d.adjustedType ≠ call.requiredType →
        runExactSet st index call =
          .error (.invalidType call.typeName d.adjustedType, st.message)) ∧
    (∀ (ext : Ext) (st : Stmt) (index : Nat) (d : Descriptor) (s : String),
        st.descriptors[index]? = some d →
        (d.adjustedType = .NULL_TYPE ∨ d.adjustedType = .BLOB ∨
          d.adjustedType = .TIMESTAMP_TZ_EX ∨ d.adjustedType = .TIME_TZ_EX) →
        setString ext st index (some s) =
          .error (.invalidType "std::string_view" d.adjustedType, st.message)) := by
  refine ⟨?_, ?_, ?_, ?_, ?_, ?_, ?_, ?_, ?_, ?_, ?_, ?_⟩
  · intro ext st index d target s0 name hd hdt htg hnull
    have hcond : ¬ (read16 st.message d.nullOffset ≠ 0) := by simp [hnull]
    cases hA : d.adjustedType <;> rw [hA] at hdt <;>
      try exact absurd hdt (by decide)
    case INT16 =>
      rcases convertNumber_intdesc_cases ext target htg d (by rw [hA]; decide)
          (readBytes st.message d.offset 16) s0 name with ⟨r, hr⟩ | hr
      · exact Or.inl ⟨(s0, .int r),
          by simp only [getNumber, getDescriptor, hd, if_neg hcond, hA, hr]⟩
      · exact Or.inr
          (by simp only [getNumber, getDescriptor, hd, if_neg hcond, hA, hr])
    case INT32 =>
      rcases convertNumber_intdesc_cases ext target htg d (by rw [hA]; decide)
          (readBytes st.message d.offset 16) s0 name with ⟨r, hr⟩ | hr
      · exact Or.inl ⟨(s0, .int r),
          by simp only [getNumber, getDescriptor, hd, if_neg hcond, hA, hr]⟩
      · exact Or.inr
          (by simp only [getNumber, getDescriptor, hd, if_neg hcond, hA, hr])
    case INT64 =>
      rcases convertNumber_intdesc_cases ext target htg d (by rw [hA]; decide)
          (readBytes st.message d.offset 16) s0 name with ⟨r, hr⟩ | hr
      · exact Or.inl ⟨(s0, .int r),
          by simp only [getNumber, getDescriptor, hd, if_neg hcond, hA, hr]⟩
      · exact Or.inr
          (by simp only [getNumber, getDescriptor, hd, if_neg hcond, hA, hr])
    case INT128 =>
      rcases convertNumber_intdesc_cases ext target htg d (by rw [hA]; decide)
          (readBytes st.message d.offset 16) s0 name with ⟨r, hr⟩ | hr
      · exact Or.inl ⟨(s0, .int r),
          by simp only [getNumber, getDescriptor, hd, if_neg hcond, hA, hr]⟩
      · exact Or.inr
          (by simp only [getNumber, getDescriptor, hd, if_neg hcond, hA, hr])
  · intro ext st index d target ts name hd hn1 hn2 hnull
    have hcond : ¬ (read16 st.message d.nullOffset ≠ 0) := by simp [hnull]
    cases hA : d.adjustedType <;> rw [hA] at hn1 hn2 <;>
      first
        | exact absurd hn1 (by decide)
        | exact absurd hn2 (by decide)
        | (cases ts <;>
             simp only [getNumber, getDescriptor, hd, if_neg hcond, convertNumber, hA])
  · intro ext st index d target name hd hfd hnull
    have hcond : ¬ (read16 st.message d.nullOffset ≠ 0) := by simp [hnull]
    rcases hfd with hA | hA <;>
      simp only [getNumber, getDescriptor, hd, if_neg hcond, hA, convertNumber]
  · intro ext st index d target name bb hd hA hdec hnull
    have hcond : ¬ (read16 st.message d.nullOffset ≠ 0) := by simp [hnull]
    simp only [getNumber, getDescriptor, hd, if_neg hcond, hA, hdec, convertNumber]
  · intro ext st index d target name bb hd hA hdec hnull
    have hcond : ¬ (read16 st.message d.nullOffset ≠ 0) := by simp [hnull]
    simp only [getNumber, getDescriptor, hd, if_neg hcond, hA, hdec, convertNumber]
  · intro ext st index d target ts name e hd hA hdec hnull
    have hcond : ¬ (read16 st.message d.nullOffset ≠ 0) := by simp [hnull]
    simp only [getNumber, getDescriptor, hd, if_neg hcond, hA, hdec]
  · intro ext st index d target ts name e hd hA hdec hnull
    have hcond : ¬ (read16 st.message d.nullOffset ≠ 0) := by simp [hnull]
    simp only [getNumber, getDescriptor, hd, if_neg hcond, hA, hdec]
  · intro st index d hd hne hnull
    have hcond : ¬ (read16 st.message d.nullOffset ≠ 0) := by simp [hnull]
    cases hA : d.adjustedType <;>
      first
        | exact absurd hA hne
        | simp only [getBool, getDescriptor, hd, if_neg hcond, hA]
  · intro ext st index d vt v sc tn hd hdt hvt
    rcases setNumberWritten_intint ext d st.message vt v sc tn hdt hvt
      with ⟨m1, hw⟩ | hw
    · exact Or.inl ⟨write16 m1 d.nullOffset 0,
        by simp only [setNumber, getDescriptor, hd, finishSet, hw]⟩
    · exact Or.inr (by simp only [setNumber, getDescriptor, hd, finishSet, hw])
  · intro ext st index d vt v sc tn hd hn1 hn2
    cases hA : d.adjustedType <;> rw [hA] at hn1 hn2 <;>
      first
        | exact absurd hn1 (by decide)
        | exact absurd hn2 (by decide)
        | simp only [setNumber, getDescriptor, hd, setNumberWritten, hA, finishSet]
  · intro st index d call hd hne
    cases call <;> simp only [ExactSetCall.requiredType] at hne <;>
      cases hA : d.adjustedType <;>
      first
        | exact absurd hA hne
        | simp only [runExactSet, ExactSetCall.typeName, setBool, setBlobId, setDate,
            setOpqDate, setTime, setOpqTime, setTimestamp, setOpqTimestamp, setTimeTz,
            setOpqTimeTz, setTimestampTz, setOpqTimestampTz, setOpqInt128,
            setOpqDecFloat16, setOpqDecFloat34, getDescriptor, hd, hA]
  · intro ext st index d s hd hty
    rcases hty with hA | hA | hA | hA <;>
      simp only [setString, getDescriptor, hd, hA]

/-- Closed instance of `accessor_type_checking`: a cross-width integral
read of an INT16 column is accepted; a scaled read of a DECFLOAT16
column whose object translation succeeds is an invalid-type error;
`getBool` on an INT16 column and `setDate` on a BOOLEAN column fail
with the invalid-type error naming both types before any write; and
`setString` on a BLOB column is unsupported. -/
theorem accessor_type_checking_witness :
    ((∃ r, getNumber noExt ⟨[⟨.INT16, 0, 2, 0, 2, true⟩], [123, 0, 0, 0]⟩ 0 .i32
          (some 0) "std::int32_t" = .ok (some r)) ∨
        getNumber noExt ⟨[⟨.INT16, 0, 2, 0, 2, true⟩], [123, 0, 0, 0]⟩ 0 .i32
          (some 0) "std::int32_t" = .error .numericRange) ∧
      getNumber noExt
          ⟨[⟨.DECFLOAT16, 0, 8, 0, 8, true⟩], [1, 2, 3, 4, 5, 6, 7, 8, 0, 0]⟩ 0 .i64
          none "std::int64_t" = .error (.invalidType "std::int64_t" .DECFLOAT16) ∧
      getBool ⟨[⟨.INT16, 0, 2, 0, 2, true⟩], [123, 0, 0, 0]⟩ 0 =
        .error (.invalidType "bool" .INT16) ∧
      runExactSet ⟨[⟨.BOOLEAN, 0, 1, 0, 2, true⟩], [1, 0, 0, 0]⟩ 0
          (.date ⟨2024, 1, 1⟩) =
        .error (.invalidType "Date" .BOOLEAN, [1, 0, 0, 0]) ∧
      setString noExt ⟨[⟨.BLOB, 0, 8, 0, 8, true⟩], [0, 0, 0, 0, 0, 0, 0, 0, 0, 0]⟩ 0
          (some "x") =
        .error (.invalidType "std::string_view" .BLOB,
          [0, 0, 0, 0, 0, 0, 0, 0, 0, 0]) :=
  ⟨accessor_type_checking.1 noExt ⟨[⟨.INT16, 0, 2, 0, 2, true⟩], [123, 0, 0, 0]⟩ 0
      ⟨.INT16, 0, 2, 0, 2, true⟩ .i32 0 "std::int32_t" (by decide) (by decide)
      (by decide) (by decide),
    accessor_type_checking.2.2.2.1 noExt
      ⟨[⟨.DECFLOAT16, 0, 8, 0, 8, true⟩], [1, 2, 3, 4, 5, 6, 7, 8, 0, 0]⟩ 0
      ⟨.DECFLOAT16, 0, 8, 0, 8, true⟩ .i64 "std::int64_t" [1, 2, 3, 4, 5, 6, 7, 8]
      (by decide) (by decide) (by decide) (by decide),
    accessor_type_checking.2.2.2.2.2.2.2.1
      ⟨[⟨.INT16, 0, 2, 0, 2, true⟩], [123, 0, 0, 0]⟩ 0 ⟨.INT16, 0, 2, 0, 2, true⟩
      (by decide) (by decide) (by decide),
    accessor_type_checking.2.2.2.2.2.2.2.2.2.2.1
      ⟨[⟨.BOOLEAN, 0, 1, 0, 2, true⟩], [1, 0, 0, 0]⟩ 0 ⟨.BOOLEAN, 0, 1, 0, 2, true⟩
      (.date ⟨2024, 1, 1⟩) (by decide) (by decide),
    accessor_type_checking.2.2.2.2.2.2.2.2.2.2.2 noExt
      ⟨[⟨.BLOB, 0, 8, 0, 8, true⟩], [0, 0, 0, 0, 0, 0, 0, 0, 0, 0]⟩ 0
      ⟨.BLOB, 0, 8, 0, 8, true⟩ "x" (by decide) (by decide)⟩

end FbCpp
